import Mathlib

/-!
# Dslash dispatch, halo staging and cost model

A shallow embedding of `include/dslash.h` (class `quda::Dslash<Float>`) and of the parameter
loading branch of `include/madwf_ml.h` (`quda::MADWFacc::train`).

Conventions of the embedding.

* In the cost model (`flops()`, `bytes()`) every computation the source carries out in `int` is a
  32-bit two's-complement computation: its exact result is reduced by `wrap32`.  Values of type
  `long long`, and the small integers outside the cost model, are unbounded `Int`.  Integer
  division is C division (`Int.tdiv`, rounding towards zero).
* C strings are `List Char`; `strcpy` replaces a buffer, `strcat` appends to it.
* Device, host and peer addresses are byte addresses in `Int`.
* `errorQuda` ends the run: fallible operations return `Except Fatal _`.
* Collaborators declared outside this header (the field container, the argument
  struct, the communication layer, the build switches) appear as structures or
  parameters holding exactly the members the header reads.
-/

namespace quda

/-! ## Data model -/

/-- Modelled from the spec: the closed enumeration of regions (`KernelType`, declared in
`dslash_quda.h`, which is not among the sources): the four per-dimension exterior regions, the
interior region, the combined exterior region and the policy aggregate. -/
inductive KernelType where
  | EXTERIOR_KERNEL_X
  | EXTERIOR_KERNEL_Y
  | EXTERIOR_KERNEL_Z
  | EXTERIOR_KERNEL_T
  | INTERIOR_KERNEL
  | EXTERIOR_KERNEL_ALL
  | KERNEL_POLICY
  deriving DecidableEq, Repr

open KernelType

/-- Modelled from the spec: the enumerator values of `KernelType`.  The header indexes
`in.GhostFace()` with the per-dimension exterior regions, so these are the dimensions `0..3`, and it
keeps one tuning string per region in `aux[8]`, so the remaining regions lie in `4..7`. -/
def KernelType.toInt : KernelType → Int
  | EXTERIOR_KERNEL_X => 0
  | EXTERIOR_KERNEL_Y => 1
  | EXTERIOR_KERNEL_Z => 2
  | EXTERIOR_KERNEL_T => 3
  | INTERIOR_KERNEL => 5
  | EXTERIOR_KERNEL_ALL => 6
  | KERNEL_POLICY => 7

/-- The enumerator, if any, that a raw value of `arg.kernel_type` denotes; `none` is the `default`
label of a `switch` over the region. -/
def KernelType.ofInt? (v : Int) : Option KernelType :=
  if v = 0 then some EXTERIOR_KERNEL_X
  else if v = 1 then some EXTERIOR_KERNEL_Y
  else if v = 2 then some EXTERIOR_KERNEL_Z
  else if v = 3 then some EXTERIOR_KERNEL_T
  else if v = 5 then some INTERIOR_KERNEL
  else if v = 6 then some EXTERIOR_KERNEL_ALL
  else if v = 7 then some KERNEL_POLICY
  else none

/-- The exterior region of dimension `d`. -/
def KernelType.exterior : Fin 4 → KernelType
  | 0 => EXTERIOR_KERNEL_X
  | 1 => EXTERIOR_KERNEL_Y
  | 2 => EXTERIOR_KERNEL_Z
  | 3 => EXTERIOR_KERNEL_T

/-- Modelled from the spec: `QudaFieldLocation` of the field container (`color_spinor_field.h`, not
among the sources). -/
inductive QudaFieldLocation where
  | QUDA_CPU_FIELD_LOCATION
  | QUDA_CUDA_FIELD_LOCATION
  deriving DecidableEq, Repr

open QudaFieldLocation

/-- Modelled from the spec: the capability bits of `MemoryLocation` (declared outside this header):
device-local, host-pinned and remote-peer memory. -/
def Device : Nat := 1

/-- Modelled from the spec: the host-pinned capability bit of `MemoryLocation`. -/
def Host : Nat := 2

/-- Modelled from the spec: the remote-peer capability bit of `MemoryLocation`. -/
def Remote : Nat := 4

/-- Modelled from the spec: the Operator Invocation Context (`DslashArg<Float>`, declared in
`dslash_helper.cuh`, not among the sources), with the members this header reads: the four
communication-enabled flags, the accumulate and sign-flip flags, the current region (raw enumerator
value), the parity count, the packing-thread count, the gauge reconstruction length and the packing
switch. -/
structure DslashArg where
  commDim : Fin 4 → Bool
  xpay : Bool
  dagger : Bool
  kernel_type : Int
  nParity : Int
  pack_threads : Int
  threads : Int
  nFace : Int
  reconstruct : Int
  pack : Bool

/-- Modelled from the spec: the field collaborator (`ColorSpinorField`, declared in
`color_spinor_field.h`, not among the sources), with the members this header reads: geometry and
precision metadata, the buffer-rotation index, the three send-buffer pools, and the site data with
its snapshot slot. -/
structure ColorSpinorField where
  Ncolor : Int
  Nspin : Int
  Volume : Int
  GhostFace : Nat → Int
  Precision : Int
  Ls : Int
  Location : QudaFieldLocation
  Ghost2 : Int
  GhostOffset : Nat → Nat → Int
  GhostPrecision : Int
  bufferIndex : Nat
  ghost_remote_send_buffer_d : Nat → Nat → Nat → Int
  my_face_dim_dir_hd : Nat → Nat → Nat → Int
  my_face_dim_dir_d : Nat → Nat → Nat → Int
  data : List Int
  backup_h : Option (List Int)

/-- The communication layer queried by the header: `comm_peer2peer_enabled(dir, dim)`,
`comm_peer2peer_enabled_global()` and `comm_dim_partitioned_string()`. -/
structure Comm where
  peer2peer_enabled : Nat → Nat → Bool
  peer2peer_enabled_global : Bool
  dim_partitioned_string : List Char

/-- The fatal errors raised through `errorQuda` in this header, and the one raised by the field
container when a restore finds no snapshot. -/
inductive Fatal where
  | notImplemented
  | unexpectedKernelType (kernel_type : Int)
  | unexpectedKernelTypeSingleGPU (kernel_type : Int)
  | nParityUndefined (nParity : Int)
  | unknownPackTargetLocation (location : Nat)
  | restoreWithoutBackup
  deriving DecidableEq, Repr

/-- The members of `Dslash<Float>`: the context, the output and input fields, the tuning strings and
the addresses of the ghost buffers being packed to. -/
structure Dslash where
  arg : DslashArg
  out : ColorSpinorField
  in_ : ColorSpinorField
  aux_base : List Char
  aux : Nat → List Char
  aux_pack : List Char
  packBuffer : Nat → Int

/-- The dispatcher mutates the region field of the context in place between phases. -/
def Dslash.setKernelType (self : Dslash) (k : KernelType) : Dslash :=
  { self with arg := { self.arg with kernel_type := k.toInt } }

/-! ## Cost and traffic model -/

/-- The values a 32-bit `int` can hold. -/
def inInt32 (x : Int) : Prop :=
  -2147483648 ≤ x ∧ x ≤ 2147483647

instance (x : Int) : Decidable (inInt32 x) := by
  unfold inInt32
  infer_instance

/-- The value a 32-bit `int` computation leaves for the exact result `x`: the representative of
`x` modulo `2^32` in the range of `int`. -/
def wrap32 (x : Int) : Int :=
  (x + 2147483648) % 4294967296 - 2147483648

/-- The loop `for (int d=0; d<4; d++) if (arg.commDim[d]) ghost_sites += 2 * in.GhostFace()[d];`
of `flops()` and `bytes()`, started from `ghost_sites = 0`.  `ghost_sites` is a `long long`, each
summand `2 * in.GhostFace()[d]` an `int`. -/
def Dslash.commGhostSites (self : Dslash) : Int :=
  ([0, 1, 2, 3] : List (Fin 4)).foldl
    (fun ghost_sites d =>
      if self.arg.commDim d then ghost_sites + wrap32 (2 * self.in_.GhostFace d.val)
      else ghost_sites)
    0

/-- `Dslash::flops()`.  The locals declared `int` and the products formed from `int` operands only
are reduced by `wrap32`; `flops_`, `sites` and `ghost_sites` are `long long`.  The
`INTERIOR_KERNEL` label falls through into the `KERNEL_POLICY` block, which `body` stands for; a
region value that is no enumerator matches no label. -/
def Dslash.flops (self : Dslash) : Int :=
  let arg := self.arg
  let in_ := self.in_
  let mv_flops : Int := wrap32 ((8 * in_.Ncolor - 2) * in_.Ncolor)
  let num_mv_multiply : Int := if in_.Nspin = 4 then 2 else 1
  let ghost_flops : Int := wrap32 (num_mv_multiply * mv_flops + 2 * in_.Ncolor * in_.Nspin)
  let xpay_flops : Int := wrap32 (2 * 2 * in_.Ncolor * in_.Nspin)
  let num_dir : Int := 2 * 4
  let pack_flops : Int :=
    if in_.Nspin = 4 then wrap32 ((wrap32 (2 * in_.Nspin)).tdiv 2 * in_.Ncolor) else 0
  let body (flops_ : Int) : Int :=
    let sites := in_.Volume
    let flops_ := flops_ +
      wrap32 (num_dir * (in_.Nspin.tdiv 4) * in_.Ncolor * in_.Nspin
        + num_dir * num_mv_multiply * mv_flops
        + ((num_dir - 1) * 2 * in_.Ncolor * in_.Nspin)) * sites
    let flops_ := if arg.xpay then flops_ + xpay_flops * sites else flops_
    if arg.kernel_type = KERNEL_POLICY.toInt then flops_
    else
      let ghost_sites := self.commGhostSites
      flops_ - ghost_flops * ghost_sites
  match KernelType.ofInt? arg.kernel_type with
  | some EXTERIOR_KERNEL_X | some EXTERIOR_KERNEL_Y | some EXTERIOR_KERNEL_Z
  | some EXTERIOR_KERNEL_T =>
    wrap32 ((ghost_flops + (if arg.xpay then xpay_flops else xpay_flops.tdiv 2)) * 2
      * in_.GhostFace arg.kernel_type.toNat)
  | some EXTERIOR_KERNEL_ALL =>
    let ghost_sites :=
      wrap32 (2 * (in_.GhostFace 0 + in_.GhostFace 1 + in_.GhostFace 2 + in_.GhostFace 3))
    wrap32 (ghost_flops + (if arg.xpay then xpay_flops else xpay_flops.tdiv 2)) * ghost_sites
  | some INTERIOR_KERNEL =>
    body (if arg.pack_threads ≠ 0 then
      0 + wrap32 (pack_flops * arg.nParity * in_.Ls * arg.pack_threads) else 0)
  | some KERNEL_POLICY => body 0
  | none => 0

/-- `Dslash::bytes()`.  `sizeof(short)`, `sizeof(char)` and `sizeof(float)` are 2, 1 and 4.  The
locals declared `int` and the products formed from `int` operands only are reduced by `wrap32`
(an `int` to which a `size_t` is added is converted back to `int` on assignment); `bytes_`,
`sites` and `ghost_sites` are `long long`.  The `INTERIOR_KERNEL` label falls through into the
`KERNEL_POLICY` block, which `body` stands for. -/
def Dslash.bytes (self : Dslash) : Int :=
  let arg := self.arg
  let in_ := self.in_
  let gauge_bytes : Int := wrap32 (arg.reconstruct * in_.Precision)
  let isFixed : Bool := in_.Precision = 2 || in_.Precision = 1
  let spinor_bytes : Int :=
    wrap32 (2 * in_.Ncolor * in_.Nspin * in_.Precision + (if isFixed then 4 else 0))
  let proj_spinor_bytes : Int := if in_.Nspin = 4 then spinor_bytes.tdiv 2 else spinor_bytes
  let ghost_bytes : Int := wrap32 ((proj_spinor_bytes + gauge_bytes) + 2 * spinor_bytes)
  let num_dir : Int := 2 * 4
  let pack_bytes : Int :=
    wrap32 (2 * ((if in_.Nspin = 4 then in_.Nspin.tdiv 2 else in_.Nspin) + in_.Nspin)
      * in_.Ncolor * in_.Precision)
  let pack_bytes : Int := if isFixed then wrap32 (pack_bytes + 2 * 4) else pack_bytes
  let body (bytes_ : Int) : Int :=
    let sites := in_.Volume
    let bytes_ := bytes_ +
      wrap32 (num_dir * gauge_bytes + ((num_dir - 2) * spinor_bytes + 2 * proj_spinor_bytes)
        + spinor_bytes) * sites
    let bytes_ := if arg.xpay then bytes_ + spinor_bytes else bytes_
    if arg.kernel_type = KERNEL_POLICY.toInt then bytes_
    else
      let ghost_sites := self.commGhostSites
      bytes_ - ghost_bytes * ghost_sites
  match KernelType.ofInt? arg.kernel_type with
  | some EXTERIOR_KERNEL_X | some EXTERIOR_KERNEL_Y | some EXTERIOR_KERNEL_Z
  | some EXTERIOR_KERNEL_T =>
    wrap32 (ghost_bytes * 2 * in_.GhostFace arg.kernel_type.toNat)
  | some EXTERIOR_KERNEL_ALL =>
    let ghost_sites :=
      wrap32 (2 * (in_.GhostFace 0 + in_.GhostFace 1 + in_.GhostFace 2 + in_.GhostFace 3))
    0 + ghost_bytes * ghost_sites
  | some INTERIOR_KERNEL =>
    body (if arg.pack_threads ≠ 0 then
      0 + wrap32 (pack_bytes * arg.nParity * in_.Ls * arg.pack_threads) else 0)
  | some KERNEL_POLICY => body 0
  | none => 0

/-! ## Tuning strings -/

/-- Writing one entry of a C array. -/
def setEntry {α : Type} (a : Nat → α) (i : Nat) (v : α) : Nat → α :=
  fun j => if j = i then v else a j

/-- `Dslash::fillAuxBase()`. -/
def Dslash.fillAuxBase (self : Dslash) : Dslash :=
  let arg := self.arg
  let comm : List Char :=
    [if arg.commDim 0 then '1' else '0',
     if arg.commDim 1 then '1' else '0',
     if arg.commDim 2 then '1' else '0',
     if arg.commDim 3 then '1' else '0']
  let self := { self with aux_base := ",commDim=".toList }
  let self := { self with aux_base := self.aux_base ++ comm }
  let self := if arg.xpay then { self with aux_base := self.aux_base ++ ",xpay".toList } else self
  let self := if arg.dagger then { self with aux_base := self.aux_base ++ ",dagger".toList } else self
  self

/-- `Dslash::setAux(type, aux_)`: `strcpy(aux[type], aux_)`. -/
def Dslash.setAux (self : Dslash) (type : KernelType) (aux_ : List Char) : Dslash :=
  { self with aux := setEntry self.aux type.toInt.toNat aux_ }

/-- `Dslash::augmentAux(type, extra)`: `strcat(aux[type], extra)`. -/
def Dslash.augmentAux (self : Dslash) (type : KernelType) (extra : List Char) : Dslash :=
  { self with aux := setEntry self.aux type.toInt.toNat (self.aux type.toInt.toNat ++ extra) }

/-- `Dslash::fillAux(kernel_type, kernel_str)`: a `strcpy` into `aux[kernel_type]` followed by two
`strcat`s, the first for the interior region only. -/
def Dslash.fillAux (comm : Comm) (self : Dslash) (kernel_type : KernelType)
    (kernel_str : List Char) : Dslash :=
  let self := self.setAux kernel_type kernel_str
  let self :=
    if kernel_type = INTERIOR_KERNEL then self.augmentAux kernel_type comm.dim_partitioned_string
    else self
  self.augmentAux kernel_type self.aux_base

/-- The body of the constructor `Dslash::Dslash`, run on the object `self` whose members `arg`,
`out` and `in` have been initialised and whose string buffers hold whatever the memory held.
`MULTI_GPU` is the build switch of that name. -/
def Dslash.construct (MULTI_GPU : Bool) (comm : Comm) (self : Dslash) : Dslash :=
  let self := self.fillAuxBase
  let self :=
    if MULTI_GPU then
      let self := self.fillAux comm INTERIOR_KERNEL "policy_kernel=interior".toList
      let self := self.fillAux comm EXTERIOR_KERNEL_ALL "policy_kernel=exterior_all".toList
      let self := self.fillAux comm EXTERIOR_KERNEL_X "policy_kernel=exterior_x".toList
      let self := self.fillAux comm EXTERIOR_KERNEL_Y "policy_kernel=exterior_y".toList
      let self := self.fillAux comm EXTERIOR_KERNEL_Z "policy_kernel=exterior_z".toList
      self.fillAux comm EXTERIOR_KERNEL_T "policy_kernel=exterior_t".toList
    else
      self.fillAux comm INTERIOR_KERNEL "policy_kernel=single-GPU".toList
  self.fillAux comm KERNEL_POLICY "policy".toList

/-- `Dslash::getAux(type)`. -/
def Dslash.getAux (self : Dslash) (type : KernelType) : List Char :=
  self.aux type.toInt.toNat

/-! ## Halo staging policy -/

/-- Modelled from the spec: `DslashArg::setPack(pack)` (declared in `dslash_helper.cuh`, not among
the sources) records the packing request in the context. -/
def DslashArg.setPack (arg : DslashArg) (pack : Bool) : DslashArg :=
  { arg with pack := pack }

/-- The loop nest of `Dslash::setPack` over `dim` in `0..3` and `dir` in `0..1`, which resolves one
destination address per channel and stores it in `packBuffer[2 * dim + dir]`; the result is the
array `packBuffer` after the loops. -/
def Dslash.setPackBuffers (comm : Comm) (self : Dslash) (location : Nat) : Nat → Int :=
  let in_ := self.in_
  [0, 1, 2, 3].foldl
    (fun packBuffer dim =>
      [0, 1].foldl
        (fun packBuffer dir =>
          if location &&& Remote ≠ 0 ∧ comm.peer2peer_enabled dir dim = true then
            setEntry packBuffer (2 * dim + dir)
              (in_.ghost_remote_send_buffer_d in_.bufferIndex dim dir
                + in_.Precision * in_.GhostOffset dim (1 - dir))
          else if location &&& Host ≠ 0 ∧ ¬ comm.peer2peer_enabled dir dim = true then
            setEntry packBuffer (2 * dim + dir) (in_.my_face_dim_dir_hd in_.bufferIndex dim dir)
          else
            setEntry packBuffer (2 * dim + dir) (in_.my_face_dim_dir_d in_.bufferIndex dim dir))
        packBuffer)
    self.packBuffer

/-- `Dslash::setPack(pack, location)`. -/
def Dslash.setPack (comm : Comm) (self : Dslash) (pack : Bool) (location : Nat) :
    Except Fatal Dslash :=
  let self := { self with arg := self.arg.setPack pack }
  if !pack then .ok self
  else
    let self := { self with packBuffer := self.setPackBuffers comm location }
    let self := { self with aux_pack := self.aux self.arg.kernel_type.toNat }
    let self := { self with aux_pack := self.aux_pack ++ ",fused_pack".toList }
    if location = Device ||| Remote then
      .ok { self with aux_pack := self.aux_pack ++ ",device-remote".toList }
    else if location = Host ||| Remote then
      .ok { self with aux_pack := self.aux_pack ++ ",host-remote".toList }
    else if location = Device then
      .ok { self with aux_pack := self.aux_pack ++ ",device-device".toList }
    else if location = Host then
      let label :=
        if comm.peer2peer_enabled_global then ",host-device".toList else ",host-host".toList
      .ok { self with aux_pack := self.aux_pack ++ label }
    else .error (.unknownPackTargetLocation location)

/-! ## Protecting the output field while tuning -/

/-- Modelled from the spec: `ColorSpinorField::backup()` (the field container is not among the
sources) takes a snapshot of the field data. -/
def ColorSpinorField.backup (f : ColorSpinorField) : ColorSpinorField :=
  { f with backup_h := some f.data }

/-- Modelled from the spec: `ColorSpinorField::restore()` (the field container is not among the
sources) puts the snapshot back and releases it; without a snapshot there is nothing to restore. -/
def ColorSpinorField.restore (f : ColorSpinorField) : Except Fatal ColorSpinorField :=
  match f.backup_h with
  | some saved => .ok { f with data := saved, backup_h := none }
  | none => .error .restoreWithoutBackup

/-- `Dslash::preTune()`. -/
def Dslash.preTune (self : Dslash) : Dslash :=
  if self.arg.kernel_type ≠ INTERIOR_KERNEL.toInt ∧ self.arg.kernel_type ≠ KERNEL_POLICY.toInt then
    { self with out := self.out.backup }
  else self

/-- `Dslash::postTune()`. -/
def Dslash.postTune (self : Dslash) : Except Fatal Dslash :=
  if self.arg.kernel_type ≠ INTERIOR_KERNEL.toInt ∧ self.arg.kernel_type ≠ KERNEL_POLICY.toInt then
    match self.out.restore with
    | .ok out => .ok { self with out := out }
    | .error e => .error e
  else .ok self

/-- Modelled from the spec: a speculative timing run of the tuner (`tune_quda.h`, not among the
sources), which reads and overwrites the data of the output field through `kernel`. -/
def Dslash.timingRun (kernel : List Int → List Int) (self : Dslash) : Dslash :=
  { self with out := { self.out with data := kernel self.out.data } }

/-! ## Variant instantiation cascade (static resolution, `JITIFY` undefined) -/

/-- One concrete kernel body `Launch<Float, nDim, nColor, nParity, dagger, xpay, kernel_type, Arg>`,
named by its template arguments. -/
structure Variant where
  nDim : Int
  nColor : Int
  nParity : Int
  dagger : Bool
  xpay : Bool
  kernel_type : KernelType
  deriving DecidableEq, Repr

/-- What a run of the cascade did: the kernel bodies whose `launch` it invoked, in order, and the
fatal error that ended it, if any. -/
structure Dispatch where
  launched : List Variant
  fatal : Option Fatal
  deriving DecidableEq, Repr

/-- `Dslash::instantiate<Launch, nDim, nColor, nParity, dagger, xpay>`: the switch over the region.
With `MULTI_GPU` undefined only the `INTERIOR_KERNEL` label and the `default` label are compiled. -/
def Dslash.instantiate_kernel_type (MULTI_GPU : Bool) (self : Dslash) (nDim nColor nParity : Int)
    (dagger xpay : Bool) (arg : DslashArg) : Dispatch :=
  if self.in_.Location = QUDA_CPU_FIELD_LOCATION then
    { launched := [], fatal := some .notImplemented }
  else
    match MULTI_GPU, KernelType.ofInt? arg.kernel_type with
    | _, some INTERIOR_KERNEL =>
      { launched := [⟨nDim, nColor, nParity, dagger, xpay, INTERIOR_KERNEL⟩], fatal := none }
    | true, some EXTERIOR_KERNEL_X =>
      { launched := [⟨nDim, nColor, nParity, dagger, xpay, EXTERIOR_KERNEL_X⟩], fatal := none }
    | true, some EXTERIOR_KERNEL_Y =>
      { launched := [⟨nDim, nColor, nParity, dagger, xpay, EXTERIOR_KERNEL_Y⟩], fatal := none }
    | true, some EXTERIOR_KERNEL_Z =>
      { launched := [⟨nDim, nColor, nParity, dagger, xpay, EXTERIOR_KERNEL_Z⟩], fatal := none }
    | true, some EXTERIOR_KERNEL_T =>
      { launched := [⟨nDim, nColor, nParity, dagger, xpay, EXTERIOR_KERNEL_T⟩], fatal := none }
    | true, some EXTERIOR_KERNEL_ALL =>
      { launched := [⟨nDim, nColor, nParity, dagger, xpay, EXTERIOR_KERNEL_ALL⟩], fatal := none }
    | true, _ => { launched := [], fatal := some (.unexpectedKernelType arg.kernel_type) }
    | false, _ => { launched := [], fatal := some (.unexpectedKernelTypeSingleGPU arg.kernel_type) }

/-- `Dslash::instantiate<Launch, nDim, nColor, nParity, xpay>`: the branch on `arg.dagger`. -/
def Dslash.instantiate_dagger (MULTI_GPU : Bool) (self : Dslash) (nDim nColor nParity : Int)
    (xpay : Bool) (arg : DslashArg) : Dispatch :=
  if arg.dagger then self.instantiate_kernel_type MULTI_GPU nDim nColor nParity true xpay arg
  else self.instantiate_kernel_type MULTI_GPU nDim nColor nParity false xpay arg

/-- `Dslash::instantiate<Launch, nDim, nColor, xpay>`: the switch over `arg.nParity`. -/
def Dslash.instantiate_nParity (MULTI_GPU : Bool) (self : Dslash) (nDim nColor : Int)
    (xpay : Bool) (arg : DslashArg) : Dispatch :=
  if arg.nParity = 1 then self.instantiate_dagger MULTI_GPU nDim nColor 1 xpay arg
  else if arg.nParity = 2 then self.instantiate_dagger MULTI_GPU nDim nColor 2 xpay arg
  else { launched := [], fatal := some (.nParityUndefined arg.nParity) }

/-- `Dslash::instantiate<Launch, nDim, nColor>`: the entry of the cascade, branching on
`arg.xpay`. -/
def Dslash.instantiate (MULTI_GPU : Bool) (self : Dslash) (nDim nColor : Int)
    (arg : DslashArg) : Dispatch :=
  if arg.xpay then self.instantiate_nParity MULTI_GPU nDim nColor true arg
  else self.instantiate_nParity MULTI_GPU nDim nColor false arg

/-! ## Quantities named by the properties below -/

/-- The sum of `flops()` over the exterior regions of the communication-enabled dimensions. -/
def Dslash.exteriorFlops (self : Dslash) : Int :=
  (([0, 1, 2, 3] : List (Fin 4)).map fun d =>
    if self.arg.commDim d then (self.setKernelType (KernelType.exterior d)).flops else 0).sum

/-- The local `mv_flops` of `flops()`. -/
def Dslash.mv_flops (self : Dslash) : Int :=
  wrap32 ((8 * self.in_.Ncolor - 2) * self.in_.Ncolor)

/-- The local `ghost_flops` of `flops()`: matrix-vector and reconstruction flops per boundary
site. -/
def Dslash.ghost_flops (self : Dslash) : Int :=
  wrap32 ((if self.in_.Nspin = 4 then 2 else 1) * self.mv_flops
    + 2 * self.in_.Ncolor * self.in_.Nspin)

/-- The local `xpay_flops` of `flops()`. -/
def Dslash.xpay_flops (self : Dslash) : Int :=
  wrap32 (2 * 2 * self.in_.Ncolor * self.in_.Nspin)

/-- The accumulation flops an exterior region charges per boundary site:
`arg.xpay ? xpay_flops : xpay_flops / 2`. -/
def Dslash.exterior_accum_flops (self : Dslash) : Int :=
  if self.arg.xpay then self.xpay_flops else self.xpay_flops.tdiv 2

/-- The local `pack_flops` of `flops()`. -/
def Dslash.pack_flops (self : Dslash) : Int :=
  if self.in_.Nspin = 4 then wrap32 ((wrap32 (2 * self.in_.Nspin)).tdiv 2 * self.in_.Ncolor)
  else 0

/-- The fused packing flops the interior region adds: the `int` product
`pack_flops * arg.nParity * Ls * arg.pack_threads` when `arg.pack_threads` is non-zero. -/
def Dslash.fused_pack_flops (self : Dslash) : Int :=
  if self.arg.pack_threads ≠ 0 then
    wrap32 (self.pack_flops * self.arg.nParity * self.in_.Ls * self.arg.pack_threads)
  else 0

/-- The flops per lattice site of the full operator without xpay, the `int` factor of `sites`:
spin projection, matrix-vector multiplies and accumulation. -/
def Dslash.site_flops (self : Dslash) : Int :=
  wrap32 (2 * 4 * (self.in_.Nspin.tdiv 4) * self.in_.Ncolor * self.in_.Nspin
    + 2 * 4 * (if self.in_.Nspin = 4 then 2 else 1) * self.mv_flops
    + (2 * 4 - 1) * 2 * self.in_.Ncolor * self.in_.Nspin)

/-- The local `gauge_bytes` of `bytes()`. -/
def Dslash.gauge_bytes (self : Dslash) : Int :=
  wrap32 (self.arg.reconstruct * self.in_.Precision)

/-- The local `spinor_bytes` of `bytes()`. -/
def Dslash.spinor_bytes (self : Dslash) : Int :=
  wrap32 (2 * self.in_.Ncolor * self.in_.Nspin * self.in_.Precision
    + (if (decide (self.in_.Precision = 2) || decide (self.in_.Precision = 1)) = true then 4
       else 0))

/-- The local `proj_spinor_bytes` of `bytes()`. -/
def Dslash.proj_spinor_bytes (self : Dslash) : Int :=
  if self.in_.Nspin = 4 then self.spinor_bytes.tdiv 2 else self.spinor_bytes

/-- The local `ghost_bytes` of `bytes()`: traffic per boundary site. -/
def Dslash.ghost_bytes (self : Dslash) : Int :=
  wrap32 ((self.proj_spinor_bytes + self.gauge_bytes) + 2 * self.spinor_bytes)

/-- The traffic per lattice site of the full operator, the `int` factor of `sites`: gauge links,
neighbouring spinors and the output spinor. -/
def Dslash.site_bytes (self : Dslash) : Int :=
  wrap32 (2 * 4 * self.gauge_bytes
    + ((2 * 4 - 2) * self.spinor_bytes + 2 * self.proj_spinor_bytes) + self.spinor_bytes)

/-- The local `pack_bytes` of `bytes()`, after the fixed-point addition. -/
def Dslash.pack_bytes (self : Dslash) : Int :=
  if (decide (self.in_.Precision = 2) || decide (self.in_.Precision = 1)) = true then
    wrap32 (wrap32 (2 * ((if self.in_.Nspin = 4 then self.in_.Nspin.tdiv 2 else self.in_.Nspin)
      + self.in_.Nspin) * self.in_.Ncolor * self.in_.Precision) + 2 * 4)
  else
    wrap32 (2 * ((if self.in_.Nspin = 4 then self.in_.Nspin.tdiv 2 else self.in_.Nspin)
      + self.in_.Nspin) * self.in_.Ncolor * self.in_.Precision)

/-- The fused packing traffic the interior region adds: the `int` product
`pack_bytes * arg.nParity * Ls * arg.pack_threads` when `arg.pack_threads` is non-zero. -/
def Dslash.fused_pack_bytes (self : Dslash) : Int :=
  if self.arg.pack_threads ≠ 0 then
    wrap32 (self.pack_bytes * self.arg.nParity * self.in_.Ls * self.arg.pack_threads)
  else 0

/-- No `int` computation of a per-site coefficient of `flops()` overflows: each of `mv_flops`,
`ghost_flops`, `xpay_flops`, the factor of `sites` and the factor of the boundary sites of an
exterior region has its exact value within the range of `int`. -/
def Dslash.flops_coefficients_in_range (self : Dslash) : Prop :=
  inInt32 ((8 * self.in_.Ncolor - 2) * self.in_.Ncolor)
    ∧ inInt32 ((if self.in_.Nspin = 4 then 2 else 1) * self.mv_flops
        + 2 * self.in_.Ncolor * self.in_.Nspin)
    ∧ inInt32 (2 * 2 * self.in_.Ncolor * self.in_.Nspin)
    ∧ inInt32 (2 * 4 * (self.in_.Nspin.tdiv 4) * self.in_.Ncolor * self.in_.Nspin
        + 2 * 4 * (if self.in_.Nspin = 4 then 2 else 1) * self.mv_flops
        + (2 * 4 - 1) * 2 * self.in_.Ncolor * self.in_.Nspin)
    ∧ inInt32 (self.ghost_flops + self.exterior_accum_flops)

instance (self : Dslash) : Decidable self.flops_coefficients_in_range := by
  unfold Dslash.flops_coefficients_in_range
  infer_instance

/-- No `int` computation of a per-site coefficient of `bytes()` overflows: each of `gauge_bytes`,
`spinor_bytes`, `ghost_bytes` and the factor of `sites` has its exact value within the range of
`int`. -/
def Dslash.bytes_coefficients_in_range (self : Dslash) : Prop :=
  inInt32 (self.arg.reconstruct * self.in_.Precision)
    ∧ inInt32 (2 * self.in_.Ncolor * self.in_.Nspin * self.in_.Precision
        + (if (decide (self.in_.Precision = 2) || decide (self.in_.Precision = 1)) = true then 4
           else 0))
    ∧ inInt32 ((self.proj_spinor_bytes + self.gauge_bytes) + 2 * self.spinor_bytes)
    ∧ inInt32 (2 * 4 * self.gauge_bytes
        + ((2 * 4 - 2) * self.spinor_bytes + 2 * self.proj_spinor_bytes) + self.spinor_bytes)

instance (self : Dslash) : Decidable self.bytes_coefficients_in_range := by
  unfold Dslash.bytes_coefficients_in_range
  infer_instance

/-- The `int` products that `flops()` and `bytes()` form for the exterior region `k` do not
overflow: for the region of one dimension the products of the per-site coefficient with
`2 * GhostFace[k]`, for the combined region the sum `2 * (GhostFace[0] + ... + GhostFace[3])`. -/
def Dslash.exterior_products_in_range (self : Dslash) (k : KernelType) : Prop :=
  match k with
  | EXTERIOR_KERNEL_X =>
    inInt32 ((self.ghost_flops + self.exterior_accum_flops) * 2 * self.in_.GhostFace 0)
      ∧ inInt32 (self.ghost_bytes * 2 * self.in_.GhostFace 0)
  | EXTERIOR_KERNEL_Y =>
    inInt32 ((self.ghost_flops + self.exterior_accum_flops) * 2 * self.in_.GhostFace 1)
      ∧ inInt32 (self.ghost_bytes * 2 * self.in_.GhostFace 1)
  | EXTERIOR_KERNEL_Z =>
    inInt32 ((self.ghost_flops + self.exterior_accum_flops) * 2 * self.in_.GhostFace 2)
      ∧ inInt32 (self.ghost_bytes * 2 * self.in_.GhostFace 2)
  | EXTERIOR_KERNEL_T =>
    inInt32 ((self.ghost_flops + self.exterior_accum_flops) * 2 * self.in_.GhostFace 3)
      ∧ inInt32 (self.ghost_bytes * 2 * self.in_.GhostFace 3)
  | EXTERIOR_KERNEL_ALL =>
    inInt32 (2 * (self.in_.GhostFace 0 + self.in_.GhostFace 1 + self.in_.GhostFace 2
      + self.in_.GhostFace 3))
  | INTERIOR_KERNEL => True
  | KERNEL_POLICY => True

instance (self : Dslash) (k : KernelType) : Decidable (self.exterior_products_in_range k) := by
  unfold Dslash.exterior_products_in_range
  cases k <;> infer_instance

/-- For every communication-enabled dimension `d`, the `int` products that `flops()` forms with
`GhostFace[d]` do not overflow: `2 * GhostFace[d]` of the interior correction and the product of
the exterior region of `d`. -/
def Dslash.comm_flops_products_in_range (self : Dslash) : Prop :=
  ∀ d : Fin 4, self.arg.commDim d = true →
    inInt32 (2 * self.in_.GhostFace d.val)
      ∧ inInt32 ((self.ghost_flops + self.exterior_accum_flops) * 2 * self.in_.GhostFace d.val)

instance (self : Dslash) : Decidable self.comm_flops_products_in_range := by
  unfold Dslash.comm_flops_products_in_range
  infer_instance

/-- For every communication-enabled dimension `d`, the `int` products that `bytes()` forms with
`GhostFace[d]` do not overflow: `2 * GhostFace[d]` of the interior correction and the product of
the exterior region of `d`. -/
def Dslash.comm_bytes_products_in_range (self : Dslash) : Prop :=
  ∀ d : Fin 4, self.arg.commDim d = true →
    inInt32 (2 * self.in_.GhostFace d.val)
      ∧ inInt32 (self.ghost_bytes * 2 * self.in_.GhostFace d.val)

instance (self : Dslash) : Decidable self.comm_bytes_products_in_range := by
  unfold Dslash.comm_bytes_products_in_range
  infer_instance

/-- The same object over a field of another volume and other boundary-slab sizes. -/
def Dslash.setShape (self : Dslash) (Volume : Int) (GhostFace : Nat → Int) : Dslash :=
  { self with in_ := { self.in_ with Volume := Volume, GhostFace := GhostFace } }

/-- A Wilson field on a local lattice of 16 sites with boundary slabs of 8 sites, single
precision. -/
def wilsonField : ColorSpinorField :=
  { Ncolor := 3, Nspin := 4, Volume := 16, GhostFace := fun _ => 8, Precision := 4, Ls := 1,
    Location := QUDA_CUDA_FIELD_LOCATION, Ghost2 := 0, GhostOffset := fun dim dir => 8 * (2 * dim + dir),
    GhostPrecision := 4, bufferIndex := 0,
    ghost_remote_send_buffer_d := fun _ dim dir => 1000 + 100 * (2 * dim + dir),
    my_face_dim_dir_hd := fun _ dim dir => 2000 + 100 * (2 * dim + dir),
    my_face_dim_dir_d := fun _ dim dir => 3000 + 100 * (2 * dim + dir),
    data := [1, 2, 3], backup_h := none }

/-- A context communicating in the first dimension only, without packing threads. -/
def commXArg : DslashArg :=
  { commDim := fun d => decide (d = 0), xpay := false, dagger := false,
    kernel_type := INTERIOR_KERNEL.toInt, nParity := 1, pack_threads := 0, threads := 16,
    nFace := 1, reconstruct := 18, pack := false }

/-- The context of `commXArg` with the accumulate flag set, and the sign-flip flag as given. -/
def xpayArg (dagger : Bool) : DslashArg :=
  { commXArg with xpay := true, dagger := dagger }

/-- A communication layer without any peer link. -/
def noPeerComm : Comm :=
  { peer2peer_enabled := fun _ _ => false, peer2peer_enabled_global := false,
    dim_partitioned_string := ",comm=1000".toList }

/-- A communication layer with a peer link on every channel. -/
def allPeerComm : Comm :=
  { peer2peer_enabled := fun _ _ => true, peer2peer_enabled_global := true,
    dim_partitioned_string := ",comm=1000".toList }

/-- A `Dslash` object over `wilsonField` with the context `commXArg`, before its constructor body
has run. -/
def commXDslash : Dslash :=
  { arg := commXArg, out := wilsonField, in_ := wilsonField, aux_base := [], aux := fun _ => [],
    aux_pack := [], packBuffer := fun _ => 0 }

/-- A staggered field with three-hop boundary slabs: 16 sites, slabs of 24 sites. -/
def staggeredField : ColorSpinorField :=
  { wilsonField with Nspin := 1, GhostFace := fun _ => 24 }

/-- A `Dslash` object over `staggeredField`, communicating in all four dimensions. -/
def staggeredDslash : Dslash :=
  { commXDslash with
    arg := { commXArg with commDim := fun _ => true }
    out := staggeredField
    in_ := staggeredField }

/-- The regions the static cascade can launch: in a multi-GPU build the interior region and the
five exterior regions, in a single-GPU build the interior region only.  `KERNEL_POLICY` and values
that are no enumerator are never launchable. -/
def launchable (MULTI_GPU : Bool) (kernel_type : Int) : Prop :=
  if MULTI_GPU then
    kernel_type = INTERIOR_KERNEL.toInt ∨ kernel_type = EXTERIOR_KERNEL_X.toInt
      ∨ kernel_type = EXTERIOR_KERNEL_Y.toInt ∨ kernel_type = EXTERIOR_KERNEL_Z.toInt
      ∨ kernel_type = EXTERIOR_KERNEL_T.toInt ∨ kernel_type = EXTERIOR_KERNEL_ALL.toInt
  else kernel_type = INTERIOR_KERNEL.toInt

instance (MULTI_GPU : Bool) (kernel_type : Int) : Decidable (launchable MULTI_GPU kernel_type) := by
  unfold launchable
  infer_instance

/-! ## Variant instantiation cascade (deferred resolution, `JITIFY` defined) -/

/-- The template arguments handed to jitify's reflection by the deferred strategy: the run-time
values as they are, the region as its raw enumerator value. -/
structure Instantiation where
  nDim : Int
  nColor : Int
  nParity : Int
  dagger : Bool
  xpay : Bool
  kernel_type : Int
  deriving DecidableEq, Repr

/-- The template arguments of a statically resolved kernel body, as an instantiation request. -/
def Variant.toInstantiation (v : Variant) : Instantiation :=
  { nDim := v.nDim, nColor := v.nColor, nParity := v.nParity, dagger := v.dagger, xpay := v.xpay,
    kernel_type := v.kernel_type.toInt }

/-- What a run of the deferred strategy did: the instantiations it asked jitify to build and
launch, the result code stored in `Tunable::jitify_error`, and the fatal error raised in this
header, if any. -/
structure DeferredDispatch where
  instantiated : List Instantiation
  jitify_error : Int
  fatal : Option Fatal
  deriving DecidableEq, Repr

/-- `Dslash::instantiate<Launch, nDim, nColor>` as compiled with `JITIFY` defined: one call
`program_->kernel(kernel).instantiate(Type<Float>(), nDim, nColor, arg.nParity, arg.dagger,
arg.xpay, arg.kernel_type, Type<Arg>()).configure(...).launch(arg)` whose result code is stored in
`Tunable::jitify_error`.  `jitify` stands for the jitify library, giving the result code of building
and launching an instantiation; the branch calls neither `errorQuda` nor `in.Location()`. -/
def Dslash.instantiate_jit (jitify : Instantiation → Int) (_self : Dslash) (nDim nColor : Int)
    (arg : DslashArg) : DeferredDispatch :=
  let request : Instantiation :=
    { nDim := nDim, nColor := nColor, nParity := arg.nParity, dagger := arg.dagger,
      xpay := arg.xpay, kernel_type := arg.kernel_type }
  { instantiated := [request], jitify_error := jitify request, fatal := none }

/-! ## Tuning the auxiliary knob -/

/-- Modelled from the spec: the CUDA vector type `int4` of the auxiliary tuning knobs. -/
structure Int4 where
  x : Int
  y : Int
  z : Int
  w : Int
  deriving DecidableEq, Repr

/-- Modelled from the spec: a launch configuration (`TuneParam`, declared in `tune_quda.h`, not
among the sources): parallelism shape, shared-memory budget and the auxiliary knobs. -/
structure TuneParam where
  block : Int × Int × Int
  grid : Int × Int × Int
  shared_bytes : Int
  aux : Int4
  deriving DecidableEq, Repr

/-- `Dslash::advanceAux(param)`: the returned flag and the tuning parameter after the call. -/
def Dslash.advanceAux (self : Dslash) (param : TuneParam) : Bool × TuneParam :=
  if self.arg.pack_threads ≠ 0 ∧ self.arg.kernel_type = INTERIOR_KERNEL.toInt then
    let max_blocks_per_dir : Int := 4
    if param.aux.x + 1 ≤ max_blocks_per_dir then
      (true, { param with aux := { param.aux with x := param.aux.x + 1 } })
    else
      (false, { param with aux := { param.aux with x := 1 } })
  else
    (false, param)

/-- `Dslash::initTuneParam(param)`; `base` stands for `TunableVectorYZ::initTuneParam`, declared in
`tune_quda.h`. -/
def Dslash.initTuneParam (base : TuneParam → TuneParam) (self : Dslash) (param : TuneParam) :
    TuneParam :=
  let param := base param
  if self.arg.pack_threads ≠ 0 ∧ self.arg.kernel_type = INTERIOR_KERNEL.toInt then
    { param with aux := { param.aux with x := 1 } }
  else param

/-- `Dslash::defaultTuneParam(param)`; `base` stands for `TunableVectorYZ::defaultTuneParam`,
declared in `tune_quda.h`. -/
def Dslash.defaultTuneParam (base : TuneParam → TuneParam) (self : Dslash) (param : TuneParam) :
    TuneParam :=
  let param := base param
  if self.arg.pack_threads ≠ 0 ∧ self.arg.kernel_type = INTERIOR_KERNEL.toInt then
    { param with aux := { param.aux with x := 1 } }
  else param

/-! ## Refreshing the ghost pointers -/

/-- What `Dslash::setParam` leaves behind: the projector scale written to `arg.t_proj_scale` (1 for
`1.0`, 2 for `2.0`) and the function-local static array `ghost[8]`, which is also the array handed
to `arg.in.resetGhost(in, ghost)`. -/
structure GhostReset where
  t_proj_scale : Int
  ghost : Nat → Int

/-- `Dslash::setParam(arg)`.  `kernelPackT` is the value of `getKernelPackT()`, and `ghost` the
content of the static array `ghost[8]` on entry: what the previous call left there. -/
def Dslash.setParam (comm : Comm) (kernelPackT : Bool) (self : Dslash) (arg : DslashArg)
    (ghost : Nat → Int) : GhostReset :=
  let in_ := self.in_
  let t_proj_scale : Int := if kernelPackT then 1 else 2
  let ghost :=
    [0, 1, 2, 3].foldl
      (fun ghost dim =>
        [0, 1].foldl
          (fun ghost dir =>
            if ¬ comm.peer2peer_enabled dir dim = true ∨ arg.kernel_type = INTERIOR_KERNEL.toInt
            then
              setEntry ghost (2 * dim + dir)
                (in_.Ghost2 + in_.GhostOffset dim dir * in_.GhostPrecision)
            else ghost)
          ghost)
      ghost
  { t_proj_scale := t_proj_scale, ghost := ghost }

/-! ## Loading trained parameters (`include/madwf_ml.h`) -/

/-- The sum of `bytes()` over the exterior regions of the communication-enabled dimensions. -/
def Dslash.exteriorBytes (self : Dslash) : Int :=
  (([0, 1, 2, 3] : List (Fin 4)).map fun d =>
    if self.arg.commDim d then (self.setKernelType (KernelType.exterior d)).bytes else 0).sum

/-- The same object with the accumulate flag of its context set to `xpay`. -/
def Dslash.setXpay (self : Dslash) (xpay : Bool) : Dslash :=
  { self with arg := { self.arg with xpay := xpay } }

/-- The object `commXDslash` over a CPU-located input field. -/
def cpuDslash : Dslash :=
  { commXDslash with in_ := { wilsonField with Location := QUDA_CPU_FIELD_LOCATION } }

/-- A Wilson field in double precision on a local lattice of `160^3 * 16` sites, checkerboarded:
32768000 sites, slabs of 204800 sites in the first three dimensions and of 2048000 sites in the
fourth. -/
def largeField : ColorSpinorField :=
  { wilsonField with
    Volume := 32768000
    GhostFace := fun d => if d = 3 then 2048000 else 204800
    Precision := 8
    GhostPrecision := 8 }

/-- A `Dslash` object over `largeField`, communicating in the fourth dimension only, without
packing threads. -/
def largeDslash : Dslash :=
  { commXDslash with
    arg := { commXArg with commDim := fun d => decide (d = 3) }
    out := largeField
    in_ := largeField }

/-- A launch configuration with every auxiliary knob at 1. -/
def unitTuneParam : TuneParam :=
  { block := (16, 1, 1), grid := (1, 1, 1), shared_bytes := 0, aux := ⟨1, 1, 1, 1⟩ }

/-- The object `commXDslash` with 128 packing threads in the interior region. -/
def packingDslash : Dslash :=
  { commXDslash with arg := { commXArg with pack_threads := 128 } }

theorem KernelType.ofInt?_toInt (k : KernelType) : KernelType.ofInt? k.toInt = some k := by
  cases k <;> rfl

theorem Dslash.setKernelType_kernel_type (self : Dslash) (k : KernelType) :
    (self.setKernelType k).arg.kernel_type = k.toInt := rfl

theorem wrap32_of_inInt32 (x : Int) (h : inInt32 x) : wrap32 x = x := by
  unfold inInt32 at h
  unfold wrap32
  omega

theorem inInt32_wrap32 (x : Int) : inInt32 (wrap32 x) := by
  unfold inInt32 wrap32
  omega

/-! ## Cost model: interior plus exterior against the policy aggregate -/

/-- C1 (as stated, refuted): on a Wilson field with 16 sites and boundary slabs of 8 sites,
communicating in the first dimension only, `flops()` of the interior region plus `flops()` of the
one enabled exterior region is 21504, while `flops()` of the policy aggregate is 21120. -/
theorem flops_interior_plus_exterior_ne_policy :
    (commXDslash.setKernelType INTERIOR_KERNEL).flops + commXDslash.exteriorFlops = 21504
      ∧ (commXDslash.setKernelType KERNEL_POLICY).flops = 21120 := by
  decide

theorem fin4_val_two : ((2 : Fin 4) : Nat) = 2 := rfl

theorem fin4_val_three : ((3 : Fin 4) : Nat) = 3 := rfl

theorem Dslash.flops_exterior (self : Dslash) (d : Fin 4) :
    (self.setKernelType (KernelType.exterior d)).flops
      = wrap32 ((self.ghost_flops + self.exterior_accum_flops) * 2 * self.in_.GhostFace d.val) := by
  fin_cases d <;> rfl

theorem Dslash.flops_policy (self : Dslash) :
    (self.setKernelType KERNEL_POLICY).flops
      = self.site_flops * self.in_.Volume
        + (if self.arg.xpay then self.xpay_flops * self.in_.Volume else 0) := by
  simp only [Dslash.flops, Dslash.setKernelType, KernelType.ofInt?_toInt, Dslash.site_flops,
    Dslash.xpay_flops, Dslash.mv_flops]
  cases self.arg.xpay <;> simp

theorem Dslash.flops_interior (self : Dslash) :
    (self.setKernelType INTERIOR_KERNEL).flops
      = self.fused_pack_flops + self.site_flops * self.in_.Volume
        + (if self.arg.xpay then self.xpay_flops * self.in_.Volume else 0)
        - self.ghost_flops * self.commGhostSites := by
  have h : (INTERIOR_KERNEL.toInt = KERNEL_POLICY.toInt) = False := by decide
  simp only [Dslash.flops, Dslash.setKernelType, KernelType.ofInt?_toInt, Dslash.site_flops,
    Dslash.xpay_flops, Dslash.fused_pack_flops, Dslash.pack_flops, Dslash.ghost_flops,
    Dslash.mv_flops, h, if_false, Dslash.commGhostSites]
  cases self.arg.xpay <;> simp

theorem Dslash.commGhostSites_eq (self : Dslash) :
    self.commGhostSites
      = (if self.arg.commDim 0 then wrap32 (2 * self.in_.GhostFace 0) else 0)
        + (if self.arg.commDim 1 then wrap32 (2 * self.in_.GhostFace 1) else 0)
        + (if self.arg.commDim 2 then wrap32 (2 * self.in_.GhostFace 2) else 0)
        + (if self.arg.commDim 3 then wrap32 (2 * self.in_.GhostFace 3) else 0) := by
  simp only [Dslash.commGhostSites, List.foldl, Fin.val_zero, Fin.val_one, fin4_val_two,
    fin4_val_three]
  split_ifs <;> ring

theorem Dslash.exteriorFlops_term (self : Dslash) (h : self.comm_flops_products_in_range)
    (d : Fin 4) :
    (if self.arg.commDim d then (self.setKernelType (KernelType.exterior d)).flops else 0)
      = (self.ghost_flops + self.exterior_accum_flops)
        * (if self.arg.commDim d then wrap32 (2 * self.in_.GhostFace d.val) else 0) := by
  by_cases hd : self.arg.commDim d = true
  · rw [if_pos hd, if_pos hd, Dslash.flops_exterior, wrap32_of_inInt32 _ (h d hd).2,
      wrap32_of_inInt32 _ (h d hd).1]
    ring
  · rw [if_neg hd, if_neg hd, mul_zero]

theorem Dslash.exteriorFlops_eq (self : Dslash) (h : self.comm_flops_products_in_range) :
    self.exteriorFlops = (self.ghost_flops + self.exterior_accum_flops) * self.commGhostSites := by
  rw [Dslash.commGhostSites_eq]
  simp only [Dslash.exteriorFlops, List.map, List.sum_cons, List.sum_nil]
  rw [self.exteriorFlops_term h 0, self.exteriorFlops_term h 1, self.exteriorFlops_term h 2,
    self.exteriorFlops_term h 3]
  simp only [Fin.val_zero, Fin.val_one, fin4_val_two, fin4_val_three]
  ring

theorem Dslash.fused_pack_flops_eq (self : Dslash)
    (hp : inInt32 (self.pack_flops * self.arg.nParity * self.in_.Ls * self.arg.pack_threads)) :
    self.fused_pack_flops
      = self.pack_flops * self.arg.nParity * self.in_.Ls * self.arg.pack_threads := by
  unfold Dslash.fused_pack_flops
  by_cases h0 : self.arg.pack_threads = 0
  · simp [h0]
  · rw [if_pos h0, wrap32_of_inInt32 _ hp]

/-- C1 (amended): for every configuration in which the `int` products of `flops()` do not overflow
(the products with the boundary-slab sizes of the enabled dimensions and the fused-packing
product), `flops()` of the interior region plus the sum of `flops()` over the exterior regions of
the enabled dimensions equals `flops()` of the policy aggregate, plus the fused packing flops
`pack_flops * nParity * Ls * pack_threads` of the interior region, plus the accumulation flops the
exterior regions charge (`xpay_flops` with xpay, `xpay_flops / 2` without) on the
`2 * GhostFace[d]` boundary sites of every enabled dimension; the matrix-vector and reconstruction
flops of a boundary site are counted once. -/
theorem flops_interior_plus_exterior (self : Dslash) (h : self.comm_flops_products_in_range)
    (hp : inInt32 (self.pack_flops * self.arg.nParity * self.in_.Ls * self.arg.pack_threads)) :
    (self.setKernelType INTERIOR_KERNEL).flops + self.exteriorFlops
      = (self.setKernelType KERNEL_POLICY).flops
        + self.pack_flops * self.arg.nParity * self.in_.Ls * self.arg.pack_threads
        + self.exterior_accum_flops * self.commGhostSites := by
  rw [Dslash.flops_interior, Dslash.flops_policy, Dslash.exteriorFlops_eq self h,
    Dslash.fused_pack_flops_eq self hp]
  ring

/-- A concrete instance of `flops_interior_plus_exterior`: the Wilson configuration `commXDslash`,
where the sum 21504 is the policy count 21120 plus no packing flops plus 24 accumulation flops on
each of the 16 boundary sites of the first dimension. -/
theorem flops_interior_plus_exterior_witness :
    (commXDslash.setKernelType INTERIOR_KERNEL).flops + commXDslash.exteriorFlops
      = (commXDslash.setKernelType KERNEL_POLICY).flops
        + commXDslash.pack_flops * commXDslash.arg.nParity * commXDslash.in_.Ls
          * commXDslash.arg.pack_threads
        + commXDslash.exterior_accum_flops * commXDslash.commGhostSites :=
  flops_interior_plus_exterior commXDslash (by decide) (by decide)

/-- Without any communication-enabled dimension and without packing threads, the interior region
alone accounts for the policy aggregate. -/
theorem flops_interior_eq_policy_of_no_comm (self : Dslash)
    (hc : ∀ d, self.arg.commDim d = false) (hp : self.arg.pack_threads = 0) :
    (self.setKernelType INTERIOR_KERNEL).flops + self.exteriorFlops
      = (self.setKernelType KERNEL_POLICY).flops := by
  have hg : self.commGhostSites = 0 := by
    rw [Dslash.commGhostSites_eq]
    simp [hc]
  have hf : self.fused_pack_flops = 0 := by
    unfold Dslash.fused_pack_flops
    simp [hp]
  have he : self.exteriorFlops = 0 := by
    simp [Dslash.exteriorFlops, hc]
  rw [Dslash.flops_interior, Dslash.flops_policy, he, hg, hf]
  ring

/-! ## Tuning strings are injective -/

theorem Dslash.construct_getAux (comm : Comm) (self : Dslash) (k : KernelType) :
    (self.construct true comm).getAux k
      = (match k with
          | INTERIOR_KERNEL => "policy_kernel=interior".toList ++ comm.dim_partitioned_string
          | EXTERIOR_KERNEL_ALL => "policy_kernel=exterior_all".toList
          | EXTERIOR_KERNEL_X => "policy_kernel=exterior_x".toList
          | EXTERIOR_KERNEL_Y => "policy_kernel=exterior_y".toList
          | EXTERIOR_KERNEL_Z => "policy_kernel=exterior_z".toList
          | EXTERIOR_KERNEL_T => "policy_kernel=exterior_t".toList
          | KERNEL_POLICY => "policy".toList) ++ self.fillAuxBase.aux_base := by
  cases k <;>
    simp [Dslash.construct, Dslash.fillAux, Dslash.setAux, Dslash.augmentAux, Dslash.getAux,
      setEntry, KernelType.toInt]

theorem Dslash.fillAuxBase_aux_base (self : Dslash) :
    self.fillAuxBase.aux_base
      = ",commDim=".toList
        ++ [if self.arg.commDim 0 then '1' else '0', if self.arg.commDim 1 then '1' else '0',
            if self.arg.commDim 2 then '1' else '0', if self.arg.commDim 3 then '1' else '0']
        ++ (if self.arg.xpay then ",xpay".toList else [])
        ++ (if self.arg.dagger then ",dagger".toList else []) := by
  obtain ⟨⟨commDim, xpay, dagger, _, _, _, _, _, _, _⟩, _, _, _, _, _, _⟩ := self
  cases xpay <;> cases dagger <;> rfl

theorem flag_char_injective (a b : Bool) :
    (if a then '1' else '0') = (if b then '1' else '0') → a = b := by
  cases a <;> cases b <;> decide

theorem flag_suffix_injective (x d x' d' : Bool) :
    (if x then ",xpay".toList else []) ++ (if d then ",dagger".toList else [])
      = (if x' then ",xpay".toList else []) ++ (if d' then ",dagger".toList else []) →
    x = x' ∧ d = d' := by
  cases x <;> cases d <;> cases x' <;> cases d' <;> decide

theorem Dslash.fillAuxBase_injective (s₁ s₂ : Dslash)
    (h : s₁.fillAuxBase.aux_base = s₂.fillAuxBase.aux_base) :
    s₁.arg.commDim = s₂.arg.commDim ∧ s₁.arg.xpay = s₂.arg.xpay ∧ s₁.arg.dagger = s₂.arg.dagger := by
  rw [Dslash.fillAuxBase_aux_base, Dslash.fillAuxBase_aux_base] at h
  simp only [List.append_assoc, List.append_cancel_left_eq, List.cons_append, List.nil_append,
    List.cons.injEq] at h
  obtain ⟨h0, h1, h2, h3, hs⟩ := h
  have hs := flag_suffix_injective _ _ _ _ hs
  refine ⟨?_, hs.1, hs.2⟩
  funext d
  fin_cases d
  · exact flag_char_injective _ _ h0
  · exact flag_char_injective _ _ h1
  · exact flag_char_injective _ _ h2
  · exact flag_char_injective _ _ h3

/-- C2: in a multi-GPU build and for a fixed `comm_dim_partitioned_string()`, the tuning string
`aux[region]` built by the constructor determines the region, the four communication flags, the
xpay flag and the dagger flag: two constructed objects with equal strings for two of the seven
regions agree in all of these. -/
theorem aux_injective (comm : Comm) (s₁ s₂ : Dslash) (k₁ k₂ : KernelType)
    (h : (s₁.construct true comm).getAux k₁ = (s₂.construct true comm).getAux k₂) :
    k₁ = k₂ ∧ s₁.arg.commDim = s₂.arg.commDim ∧ s₁.arg.xpay = s₂.arg.xpay
      ∧ s₁.arg.dagger = s₂.arg.dagger := by
  rw [Dslash.construct_getAux, Dslash.construct_getAux] at h
  have hk : k₁ = k₂ := by
    rw [Dslash.fillAuxBase_aux_base, Dslash.fillAuxBase_aux_base] at h
    cases k₁ <;> cases k₂ <;> first | rfl | (exfalso; simp at h)
  subst hk
  refine ⟨rfl, Dslash.fillAuxBase_injective s₁ s₂ ?_⟩
  cases k₁ <;> simpa using h
/-- A concrete instance of `aux_injective`: two objects that differ only in the content their
string buffers held before construction have the same interior string, hence the same flags. -/
theorem aux_injective_witness :
    INTERIOR_KERNEL = INTERIOR_KERNEL
      ∧ commXDslash.arg.commDim = ({ commXDslash with aux_base := ['?'] } : Dslash).arg.commDim
      ∧ commXDslash.arg.xpay = ({ commXDslash with aux_base := ['?'] } : Dslash).arg.xpay
      ∧ commXDslash.arg.dagger = ({ commXDslash with aux_base := ['?'] } : Dslash).arg.dagger :=
  aux_injective noPeerComm commXDslash { commXDslash with aux_base := ['?'] }
    INTERIOR_KERNEL INTERIOR_KERNEL (by decide)

/-- The instance named by the specification: with `commDim = {1,0,0,0}` and xpay set, the interior
strings for `dagger = false` and `dagger = true` differ, whatever `comm_dim_partitioned_string()`
is. -/
theorem aux_interior_dagger_ne (comm : Comm) :
    (({ commXDslash with arg := xpayArg false } : Dslash).construct true comm).getAux
        INTERIOR_KERNEL
      ≠ (({ commXDslash with arg := xpayArg true } : Dslash).construct true comm).getAux
        INTERIOR_KERNEL := by
  intro h
  rw [Dslash.construct_getAux, Dslash.construct_getAux] at h
  have hb := Dslash.fillAuxBase_injective _ _ (by simpa using h)
  exact absurd hb.2.2 (by decide)

/-! ## Halo staging policy -/

theorem Dslash.setPack_true (comm : Comm) (self : Dslash) (location : Nat) :
    self.setPack comm true location
      = if location = Device ||| Remote ∨ location = Host ||| Remote ∨ location = Device
            ∨ location = Host then
          .ok { self with
            arg := self.arg.setPack true
            packBuffer := self.setPackBuffers comm location
            aux_pack := self.aux self.arg.kernel_type.toNat ++ ",fused_pack".toList ++
              (if location = Device ||| Remote then ",device-remote".toList
               else if location = Host ||| Remote then ",host-remote".toList
               else if location = Device then ",device-device".toList
               else if comm.peer2peer_enabled_global then ",host-device".toList
               else ",host-host".toList) }
        else .error (.unknownPackTargetLocation location) := by
  unfold Dslash.setPack
  simp only [Bool.not_true, Bool.false_eq_true, if_false]
  split_ifs <;> first | rfl | (exfalso; tauto)

/-- C3 (as stated, refuted): without any peer link, `setPack(true, Device)` and
`setPack(true, Device | Remote)` on the same object both complete and resolve the same `packBuffer`
addresses, yet their fused-pack tuning strings differ. -/
theorem setPack_same_buffers_distinct_aux_pack :
    ∃ s₁ s₂ : Dslash,
      (commXDslash.construct true noPeerComm).setPack noPeerComm true Device = .ok s₁
        ∧ (commXDslash.construct true noPeerComm).setPack noPeerComm true (Device ||| Remote)
            = .ok s₂
        ∧ s₁.packBuffer = s₂.packBuffer
        ∧ s₁.aux_pack ≠ s₂.aux_pack :=
  ⟨_, _, rfl, rfl, rfl, by decide⟩
theorem Dslash.setPack_ok (comm : Comm) (self s : Dslash) (location : Nat)
    (h : self.setPack comm true location = .ok s) :
    (location = Device ||| Remote ∨ location = Host ||| Remote ∨ location = Device
        ∨ location = Host)
      ∧ s.packBuffer = self.setPackBuffers comm location
      ∧ s.aux_pack = self.aux self.arg.kernel_type.toNat ++ ",fused_pack".toList ++
          (if location = Device ||| Remote then ",device-remote".toList
           else if location = Host ||| Remote then ",host-remote".toList
           else if location = Device then ",device-device".toList
           else if comm.peer2peer_enabled_global then ",host-device".toList
           else ",host-host".toList) := by
  rw [Dslash.setPack_true] at h
  by_cases hc : location = Device ||| Remote ∨ location = Host ||| Remote ∨ location = Device
      ∨ location = Host
  · rw [if_pos hc] at h
    injection h with h
    subst h
    exact ⟨hc, rfl, rfl⟩
  · rw [if_neg hc] at h
    cases h

theorem pack_label_injective (g : Bool) (m₁ m₂ : Nat)
    (h₁ : m₁ = Device ||| Remote ∨ m₁ = Host ||| Remote ∨ m₁ = Device ∨ m₁ = Host)
    (h₂ : m₂ = Device ||| Remote ∨ m₂ = Host ||| Remote ∨ m₂ = Device ∨ m₂ = Host)
    (h : (if m₁ = Device ||| Remote then ",device-remote".toList
          else if m₁ = Host ||| Remote then ",host-remote".toList
          else if m₁ = Device then ",device-device".toList
          else if g then ",host-device".toList else ",host-host".toList)
        = (if m₂ = Device ||| Remote then ",device-remote".toList
          else if m₂ = Host ||| Remote then ",host-remote".toList
          else if m₂ = Device then ",device-device".toList
          else if g then ",host-device".toList else ",host-host".toList)) :
    m₁ = m₂ := by
  rcases h₁ with rfl | rfl | rfl | rfl <;> rcases h₂ with rfl | rfl | rfl | rfl <;>
    first
      | rfl
      | (exfalso; cases g <;> revert h <;> decide)

/-- C3 (amended): for two calls `setPack(true, m₁)` and `setPack(true, m₂)` on the same object and
communication state that both complete without a fatal error, the fused-pack tuning strings
`aux_pack` are identical exactly when the two masks are equal: the string is labelled by the mask,
not by the resolved addresses. -/
theorem setPack_aux_pack_eq_iff (comm : Comm) (self : Dslash) (m₁ m₂ : Nat) (s₁ s₂ : Dslash)
    (h₁ : self.setPack comm true m₁ = .ok s₁) (h₂ : self.setPack comm true m₂ = .ok s₂) :
    s₁.aux_pack = s₂.aux_pack ↔ m₁ = m₂ := by
  obtain ⟨hm₁, -, e₁⟩ := Dslash.setPack_ok comm self s₁ m₁ h₁
  obtain ⟨hm₂, -, e₂⟩ := Dslash.setPack_ok comm self s₂ m₂ h₂
  rw [e₁, e₂]
  constructor
  · intro h
    exact pack_label_injective _ _ _ hm₁ hm₂ (List.append_cancel_left h)
  · rintro rfl
    rfl

/-- A concrete instance of `setPack_aux_pack_eq_iff`: two calls with the mask `Device`. -/
theorem setPack_aux_pack_eq_iff_witness :
    ∃ s : Dslash, s.aux_pack = s.aux_pack ↔ Device = Device :=
  ⟨_, setPack_aux_pack_eq_iff noPeerComm (commXDslash.construct true noPeerComm) Device Device
    _ _ rfl rfl⟩

theorem setEntry_ite {α : Type} (a : Nat → α) (i : Nat) (c₁ c₂ : Prop) [Decidable c₁]
    [Decidable c₂] (x y z : α) :
    (if c₁ then setEntry a i x else if c₂ then setEntry a i y else setEntry a i z)
      = setEntry a i (if c₁ then x else if c₂ then y else z) := by
  split_ifs <;> rfl

theorem Dslash.setPackBuffers_entry (comm : Comm) (self : Dslash) (location : Nat)
    (dim dir : Nat) (hdim : dim < 4) (hdir : dir < 2) :
    self.setPackBuffers comm location (2 * dim + dir)
      = if location &&& Remote ≠ 0 ∧ comm.peer2peer_enabled dir dim = true then
          self.in_.ghost_remote_send_buffer_d self.in_.bufferIndex dim dir
            + self.in_.Precision * self.in_.GhostOffset dim (1 - dir)
        else if location &&& Host ≠ 0 ∧ ¬ comm.peer2peer_enabled dir dim = true then
          self.in_.my_face_dim_dir_hd self.in_.bufferIndex dim dir
        else self.in_.my_face_dim_dir_d self.in_.bufferIndex dim dir := by
  simp only [Dslash.setPackBuffers, List.foldl, setEntry_ite]
  interval_cases dim <;> interval_cases dir <;> simp [setEntry]
/-- C4 (as stated, refuted): with a peer link on every channel, `setPack(true, Remote)` ends in the
fatal error for an unknown pack target location. -/
theorem setPack_remote_only_fatal :
    (commXDslash.construct true allPeerComm).setPack allPeerComm true Remote
      = .error (.unknownPackTargetLocation 4) :=
  rfl

/-- C4 (amended): for every peer-link availability and every capability mask among `Device`,
`Host`, `Device | Remote` and `Host | Remote`, `setPack(true, mask)` completes without a fatal
error; each of the eight `packBuffer` entries is the local device send buffer, the pinned-host send
buffer or the peer's remote buffer plus offset; and these entries are the same for every object and
communication state with the same input field and the same per-channel peer-link availability. -/
theorem setPack_total (comm : Comm) (self : Dslash) (location : Nat)
    (h : location = Device ∨ location = Host ∨ location = Device ||| Remote
      ∨ location = Host ||| Remote) :
    ∃ s : Dslash, self.setPack comm true location = .ok s
      ∧ (∀ dim dir : Nat, dim < 4 → dir < 2 →
          s.packBuffer (2 * dim + dir) = self.in_.my_face_dim_dir_d self.in_.bufferIndex dim dir
          ∨ s.packBuffer (2 * dim + dir) = self.in_.my_face_dim_dir_hd self.in_.bufferIndex dim dir
          ∨ s.packBuffer (2 * dim + dir)
              = self.in_.ghost_remote_send_buffer_d self.in_.bufferIndex dim dir
                + self.in_.Precision * self.in_.GhostOffset dim (1 - dir))
      ∧ (∀ (comm' : Comm) (self' s' : Dslash), self'.in_ = self.in_ →
          comm'.peer2peer_enabled = comm.peer2peer_enabled →
          self'.setPack comm' true location = .ok s' →
          ∀ dim dir : Nat, dim < 4 → dir < 2 →
            s'.packBuffer (2 * dim + dir) = s.packBuffer (2 * dim + dir)) := by
  have hc : location = Device ||| Remote ∨ location = Host ||| Remote ∨ location = Device
      ∨ location = Host := by tauto
  obtain ⟨s, hs⟩ : ∃ s : Dslash, self.setPack comm true location = .ok s :=
    ⟨_, by rw [Dslash.setPack_true, if_pos hc]⟩
  have es := (Dslash.setPack_ok comm self s location hs).2.1
  refine ⟨s, hs, ?_, ?_⟩
  · intro dim dir hdim hdir
    rw [es, Dslash.setPackBuffers_entry comm self location dim dir hdim hdir]
    split_ifs <;> simp
  · intro comm' self' s' hin hp hs' dim dir hdim hdir
    obtain ⟨-, e, -⟩ := Dslash.setPack_ok comm' self' s' location hs'
    rw [e, es, Dslash.setPackBuffers_entry comm' self' location dim dir hdim hdir,
      Dslash.setPackBuffers_entry comm self location dim dir hdim hdir, hin, hp]

/-- A concrete instance of `setPack_total`: the mask `Host | Remote` without any peer link. -/
theorem setPack_total_witness :
    ∃ s : Dslash, commXDslash.setPack noPeerComm true (Host ||| Remote) = .ok s
      ∧ (∀ dim dir : Nat, dim < 4 → dir < 2 →
          s.packBuffer (2 * dim + dir)
              = commXDslash.in_.my_face_dim_dir_d commXDslash.in_.bufferIndex dim dir
          ∨ s.packBuffer (2 * dim + dir)
              = commXDslash.in_.my_face_dim_dir_hd commXDslash.in_.bufferIndex dim dir
          ∨ s.packBuffer (2 * dim + dir)
              = commXDslash.in_.ghost_remote_send_buffer_d commXDslash.in_.bufferIndex dim dir
                + commXDslash.in_.Precision * commXDslash.in_.GhostOffset dim (1 - dir))
      ∧ (∀ (comm' : Comm) (self' s' : Dslash), self'.in_ = commXDslash.in_ →
          comm'.peer2peer_enabled = noPeerComm.peer2peer_enabled →
          self'.setPack comm' true (Host ||| Remote) = .ok s' →
          ∀ dim dir : Nat, dim < 4 → dir < 2 →
            s'.packBuffer (2 * dim + dir) = s.packBuffer (2 * dim + dir)) :=
  setPack_total noPeerComm commXDslash (Host ||| Remote) (by decide)

/-- C5: for every object and every peer-link availability, `setPack(true, location)` with a mask
that grants none of `Device`, `Host` and `Remote` ends in the fatal error
`Unknown pack target location`. -/
theorem setPack_empty_mask_fatal (comm : Comm) (self : Dslash) (location : Nat)
    (hD : location &&& Device = 0) (hH : location &&& Host = 0) (hR : location &&& Remote = 0) :
    self.setPack comm true location = .error (.unknownPackTargetLocation location) := by
  rw [Dslash.setPack_true, if_neg]
  rintro (rfl | rfl | rfl | rfl)
  · exact absurd hD (by decide)
  · exact absurd hH (by decide)
  · exact absurd hD (by decide)
  · exact absurd hH (by decide)

/-- A concrete instance of `setPack_empty_mask_fatal`: the empty mask `0`, with a peer link on
every channel. -/
theorem setPack_empty_mask_fatal_witness :
    (commXDslash.construct true allPeerComm).setPack allPeerComm true 0
      = .error (.unknownPackTargetLocation 0) :=
  setPack_empty_mask_fatal allPeerComm (commXDslash.construct true allPeerComm) 0
    (by decide) (by decide) (by decide)

/-- C6: for every channel (`dim` in `0..3`, `dir` in `0..1`), `setPack(true, mask)` with one of the
masks it accepts (`Device`, `Host`, `Device | Remote`, `Host | Remote`) returns with
`packBuffer[2 * dim + dir]` set to the peer's remote send buffer plus
`Precision * GhostOffset(dim, 1 - dir)` if the mask contains `Remote` and the peer link for
`(dir, dim)` is available; otherwise to the pinned-host buffer if the mask contains `Host` and the
peer link is not available; otherwise to the local device buffer.  For every mask this is what the
loop of `setPack` stores, and what `packBuffer` holds whenever `setPack` returns; and with a
`Host`-only mask `setPack` returns with the local device buffer on a channel with a peer link. -/
theorem setPack_packBuffer (comm : Comm) (self : Dslash) (location : Nat) (dim dir : Nat)
    (hdim : dim < 4) (hdir : dir < 2) :
    (location = Device ∨ location = Host ∨ location = Device ||| Remote
        ∨ location = Host ||| Remote →
        ∃ s : Dslash, self.setPack comm true location = .ok s
          ∧ s.packBuffer (2 * dim + dir)
            = if location &&& Remote ≠ 0 ∧ comm.peer2peer_enabled dir dim = true then
                self.in_.ghost_remote_send_buffer_d self.in_.bufferIndex dim dir
                  + self.in_.Precision * self.in_.GhostOffset dim (1 - dir)
              else if location &&& Host ≠ 0 ∧ ¬ comm.peer2peer_enabled dir dim = true then
                self.in_.my_face_dim_dir_hd self.in_.bufferIndex dim dir
              else self.in_.my_face_dim_dir_d self.in_.bufferIndex dim dir)
      ∧ (self.setPackBuffers comm location (2 * dim + dir)
        = if location &&& Remote ≠ 0 ∧ comm.peer2peer_enabled dir dim = true then
            self.in_.ghost_remote_send_buffer_d self.in_.bufferIndex dim dir
              + self.in_.Precision * self.in_.GhostOffset dim (1 - dir)
          else if location &&& Host ≠ 0 ∧ ¬ comm.peer2peer_enabled dir dim = true then
            self.in_.my_face_dim_dir_hd self.in_.bufferIndex dim dir
          else self.in_.my_face_dim_dir_d self.in_.bufferIndex dim dir)
      ∧ (∀ s : Dslash, self.setPack comm true location = .ok s →
          s.packBuffer (2 * dim + dir) = self.setPackBuffers comm location (2 * dim + dir))
      ∧ (location = Host → comm.peer2peer_enabled dir dim = true →
          ∃ s : Dslash, self.setPack comm true location = .ok s
            ∧ s.packBuffer (2 * dim + dir)
              = self.in_.my_face_dim_dir_d self.in_.bufferIndex dim dir) := by
  have key := Dslash.setPackBuffers_entry comm self location dim dir hdim hdir
  have returns : (location = Device ∨ location = Host ∨ location = Device ||| Remote
      ∨ location = Host ||| Remote) →
      ∃ s : Dslash, self.setPack comm true location = .ok s
        ∧ s.packBuffer (2 * dim + dir) = self.setPackBuffers comm location (2 * dim + dir) := by
    intro h
    have hc : location = Device ||| Remote ∨ location = Host ||| Remote ∨ location = Device
        ∨ location = Host := by tauto
    obtain ⟨s, hs⟩ : ∃ s : Dslash, self.setPack comm true location = .ok s :=
      ⟨_, by rw [Dslash.setPack_true, if_pos hc]⟩
    exact ⟨s, hs, by rw [(Dslash.setPack_ok comm self s location hs).2.1]⟩
  refine ⟨?_, key, ?_, ?_⟩
  · intro h
    obtain ⟨s, hs, e⟩ := returns h
    exact ⟨s, hs, e.trans key⟩
  · intro s hs
    rw [(Dslash.setPack_ok comm self s location hs).2.1]
  · intro hl hp
    obtain ⟨s, hs, e⟩ := returns (Or.inr (Or.inl hl))
    refine ⟨s, hs, ?_⟩
    have hR : Host &&& Remote = 0 := by decide
    rw [e, key, hl, hp, hR]
    simp

/-- A concrete instance of `setPack_packBuffer`: with the mask `Host | Remote` and a peer link on
every channel, `setPack` returns, and channel `(dim, dir) = (1, 0)` holds the peer's buffer at
`1000 + 100 * 2` plus `4 * GhostOffset(1, 1) = 4 * 24`. -/
theorem setPack_packBuffer_witness :
    ∃ s : Dslash, commXDslash.setPack allPeerComm true (Host ||| Remote) = .ok s
      ∧ s.packBuffer (2 * 1 + 0) = 1296 :=
  Exists.elim
    ((setPack_packBuffer allPeerComm commXDslash (Host ||| Remote) 1 0 (by decide)
      (by decide)).1 (by decide))
    (fun s h => ⟨s, h.1, h.2.trans (by decide)⟩)

/-! ## Snapshot and restore around a timing run -/

/-- C7: for every region other than `INTERIOR_KERNEL` and `KERNEL_POLICY` and every timing run,
`preTune()` takes a snapshot of the output field and `postTune()` after the run finds that snapshot
and restores it, so the output field holds the data it held before `preTune()`; for
`INTERIOR_KERNEL` and `KERNEL_POLICY` neither `preTune()` nor `postTune()` touches the object. -/
theorem preTune_postTune_roundtrip (self : Dslash) (k : KernelType)
    (kernel : List Int → List Int) :
    if k = INTERIOR_KERNEL ∨ k = KERNEL_POLICY then
      (self.setKernelType k).preTune = self.setKernelType k
        ∧ ((self.setKernelType k).preTune.timingRun kernel).postTune
            = .ok ((self.setKernelType k).timingRun kernel)
    else
      (self.setKernelType k).preTune.out.backup_h = some self.out.data
        ∧ ((self.setKernelType k).preTune.timingRun kernel).postTune
            = .ok { self.setKernelType k with out := { self.out with backup_h := none } } := by
  cases k <;> simp <;> exact ⟨rfl, rfl⟩

/-! ## Cost model: sign and monotonicity -/

theorem inInt32_of_nonneg_of_le (x y : Int) (h0 : 0 ≤ x) (hxy : x ≤ y) (hy : inInt32 y) :
    inInt32 x := by
  unfold inInt32 at *
  omega

theorem Dslash.flops_exterior_all (self : Dslash) :
    (self.setKernelType EXTERIOR_KERNEL_ALL).flops
      = wrap32 (self.ghost_flops + self.exterior_accum_flops)
        * wrap32 (2 * (self.in_.GhostFace 0 + self.in_.GhostFace 1 + self.in_.GhostFace 2
          + self.in_.GhostFace 3)) := rfl

theorem Dslash.bytes_exterior (self : Dslash) (d : Fin 4) :
    (self.setKernelType (KernelType.exterior d)).bytes
      = wrap32 (self.ghost_bytes * 2 * self.in_.GhostFace d.val) := by
  fin_cases d <;> rfl

theorem Dslash.bytes_exterior_all (self : Dslash) :
    (self.setKernelType EXTERIOR_KERNEL_ALL).bytes
      = self.ghost_bytes
        * wrap32 (2 * (self.in_.GhostFace 0 + self.in_.GhostFace 1 + self.in_.GhostFace 2
          + self.in_.GhostFace 3)) := by
  show 0 + _ = _
  rw [zero_add]
  rfl

theorem Dslash.bytes_policy (self : Dslash) :
    (self.setKernelType KERNEL_POLICY).bytes
      = self.site_bytes * self.in_.Volume + (if self.arg.xpay then self.spinor_bytes else 0) := by
  simp only [Dslash.bytes, Dslash.setKernelType, KernelType.ofInt?_toInt, Dslash.site_bytes,
    Dslash.spinor_bytes, Dslash.proj_spinor_bytes, Dslash.gauge_bytes]
  cases self.arg.xpay <;> simp

theorem Dslash.bytes_interior (self : Dslash) :
    (self.setKernelType INTERIOR_KERNEL).bytes
      = self.fused_pack_bytes + self.site_bytes * self.in_.Volume
        + (if self.arg.xpay then self.spinor_bytes else 0)
        - self.ghost_bytes * self.commGhostSites := by
  have h : (INTERIOR_KERNEL.toInt = KERNEL_POLICY.toInt) = False := by decide
  simp only [Dslash.bytes, Dslash.setKernelType, KernelType.ofInt?_toInt, Dslash.site_bytes,
    Dslash.spinor_bytes, Dslash.proj_spinor_bytes, Dslash.fused_pack_bytes, Dslash.pack_bytes,
    Dslash.ghost_bytes, Dslash.gauge_bytes, h, if_false, Dslash.commGhostSites]
  cases self.arg.xpay <;> simp

theorem Dslash.mv_flops_eq (self : Dslash) (hf : self.flops_coefficients_in_range) :
    self.mv_flops = (8 * self.in_.Ncolor - 2) * self.in_.Ncolor :=
  wrap32_of_inInt32 _ hf.1

theorem Dslash.ghost_flops_eq (self : Dslash) (hf : self.flops_coefficients_in_range) :
    self.ghost_flops
      = (if self.in_.Nspin = 4 then 2 else 1) * ((8 * self.in_.Ncolor - 2) * self.in_.Ncolor)
        + 2 * self.in_.Ncolor * self.in_.Nspin := by
  unfold Dslash.ghost_flops
  rw [wrap32_of_inInt32 _ hf.2.1, self.mv_flops_eq hf]

theorem Dslash.xpay_flops_eq (self : Dslash) (hf : self.flops_coefficients_in_range) :
    self.xpay_flops = 2 * 2 * self.in_.Ncolor * self.in_.Nspin :=
  wrap32_of_inInt32 _ hf.2.2.1

theorem Dslash.site_flops_eq (self : Dslash) (hf : self.flops_coefficients_in_range) :
    self.site_flops
      = 2 * 4 * (self.in_.Nspin.tdiv 4) * self.in_.Ncolor * self.in_.Nspin
        + 2 * 4 * (if self.in_.Nspin = 4 then 2 else 1)
          * ((8 * self.in_.Ncolor - 2) * self.in_.Ncolor)
        + (2 * 4 - 1) * 2 * self.in_.Ncolor * self.in_.Nspin := by
  unfold Dslash.site_flops
  rw [wrap32_of_inInt32 _ hf.2.2.2.1, self.mv_flops_eq hf]

theorem Dslash.gauge_bytes_eq (self : Dslash) (hb : self.bytes_coefficients_in_range) :
    self.gauge_bytes = self.arg.reconstruct * self.in_.Precision :=
  wrap32_of_inInt32 _ hb.1

theorem Dslash.spinor_bytes_eq (self : Dslash) (hb : self.bytes_coefficients_in_range) :
    self.spinor_bytes
      = 2 * self.in_.Ncolor * self.in_.Nspin * self.in_.Precision
        + (if (decide (self.in_.Precision = 2) || decide (self.in_.Precision = 1)) = true then 4
           else 0) :=
  wrap32_of_inInt32 _ hb.2.1

theorem Dslash.ghost_bytes_eq (self : Dslash) (hb : self.bytes_coefficients_in_range) :
    self.ghost_bytes = (self.proj_spinor_bytes + self.gauge_bytes) + 2 * self.spinor_bytes :=
  wrap32_of_inInt32 _ hb.2.2.1

theorem Dslash.site_bytes_eq (self : Dslash) (hb : self.bytes_coefficients_in_range) :
    self.site_bytes
      = 2 * 4 * self.gauge_bytes
        + ((2 * 4 - 2) * self.spinor_bytes + 2 * self.proj_spinor_bytes) + self.spinor_bytes :=
  wrap32_of_inInt32 _ hb.2.2.2

theorem Dslash.ghost_flops_nonneg (self : Dslash) (hNc : 1 ≤ self.in_.Ncolor)
    (hNs : self.in_.Nspin = 1 ∨ self.in_.Nspin = 2 ∨ self.in_.Nspin = 4)
    (hf : self.flops_coefficients_in_range) :
    0 ≤ self.ghost_flops := by
  rw [self.ghost_flops_eq hf]
  have h1 : 0 ≤ (8 * self.in_.Ncolor - 2) * self.in_.Ncolor := by nlinarith
  rcases hNs with h | h | h <;> rw [h] <;> norm_num <;> nlinarith

theorem Dslash.xpay_flops_nonneg (self : Dslash) (hNc : 1 ≤ self.in_.Ncolor)
    (hNs : self.in_.Nspin = 1 ∨ self.in_.Nspin = 2 ∨ self.in_.Nspin = 4)
    (hf : self.flops_coefficients_in_range) :
    0 ≤ self.xpay_flops := by
  rw [self.xpay_flops_eq hf]
  rcases hNs with h | h | h <;> rw [h] <;> nlinarith

theorem Dslash.exterior_accum_flops_nonneg (self : Dslash) (hNc : 1 ≤ self.in_.Ncolor)
    (hNs : self.in_.Nspin = 1 ∨ self.in_.Nspin = 2 ∨ self.in_.Nspin = 4)
    (hf : self.flops_coefficients_in_range) :
    0 ≤ self.exterior_accum_flops := by
  have h := self.xpay_flops_nonneg hNc hNs hf
  unfold Dslash.exterior_accum_flops
  split_ifs
  · exact h
  · exact Int.tdiv_nonneg h (by decide)

theorem Dslash.site_flops_nonneg (self : Dslash) (hNc : 1 ≤ self.in_.Ncolor)
    (hNs : self.in_.Nspin = 1 ∨ self.in_.Nspin = 2 ∨ self.in_.Nspin = 4)
    (hf : self.flops_coefficients_in_range) :
    0 ≤ self.site_flops := by
  rw [self.site_flops_eq hf]
  have h1 : 0 ≤ (8 * self.in_.Ncolor - 2) * self.in_.Ncolor := by nlinarith
  have t1 : Int.tdiv 1 4 = 0 := by decide
  have t2 : Int.tdiv 2 4 = 0 := by decide
  have t4 : Int.tdiv 4 4 = 1 := by decide
  rcases hNs with h | h | h <;> rw [h] <;> norm_num [t1, t2, t4] <;> nlinarith

theorem Dslash.gauge_bytes_nonneg (self : Dslash) (hP : 0 < self.in_.Precision)
    (hrec : 0 ≤ self.arg.reconstruct) (hb : self.bytes_coefficients_in_range) :
    0 ≤ self.gauge_bytes := by
  rw [self.gauge_bytes_eq hb]
  nlinarith

theorem Dslash.spinor_bytes_nonneg (self : Dslash) (hNc : 1 ≤ self.in_.Ncolor)
    (hNs : self.in_.Nspin = 1 ∨ self.in_.Nspin = 2 ∨ self.in_.Nspin = 4)
    (hP : 0 < self.in_.Precision) (hb : self.bytes_coefficients_in_range) :
    0 ≤ self.spinor_bytes := by
  rw [self.spinor_bytes_eq hb]
  have h0 : 0 ≤ self.in_.Ncolor * self.in_.Precision := by nlinarith
  have h1 : 0 ≤ 2 * self.in_.Ncolor * self.in_.Nspin * self.in_.Precision := by
    rcases hNs with h | h | h <;> rw [h] <;> nlinarith
  split_ifs <;> linarith

theorem Dslash.proj_spinor_bytes_nonneg (self : Dslash) (hNc : 1 ≤ self.in_.Ncolor)
    (hNs : self.in_.Nspin = 1 ∨ self.in_.Nspin = 2 ∨ self.in_.Nspin = 4)
    (hP : 0 < self.in_.Precision) (hb : self.bytes_coefficients_in_range) :
    0 ≤ self.proj_spinor_bytes := by
  have h := self.spinor_bytes_nonneg hNc hNs hP hb
  unfold Dslash.proj_spinor_bytes
  split_ifs
  · exact Int.tdiv_nonneg h (by decide)
  · exact h

theorem Dslash.ghost_bytes_nonneg (self : Dslash) (hNc : 1 ≤ self.in_.Ncolor)
    (hNs : self.in_.Nspin = 1 ∨ self.in_.Nspin = 2 ∨ self.in_.Nspin = 4)
    (hP : 0 < self.in_.Precision) (hrec : 0 ≤ self.arg.reconstruct)
    (hb : self.bytes_coefficients_in_range) : 0 ≤ self.ghost_bytes := by
  have h1 := self.spinor_bytes_nonneg hNc hNs hP hb
  have h2 := self.proj_spinor_bytes_nonneg hNc hNs hP hb
  have h3 := self.gauge_bytes_nonneg hP hrec hb
  rw [self.ghost_bytes_eq hb]
  linarith

theorem Dslash.site_bytes_nonneg (self : Dslash) (hNc : 1 ≤ self.in_.Ncolor)
    (hNs : self.in_.Nspin = 1 ∨ self.in_.Nspin = 2 ∨ self.in_.Nspin = 4)
    (hP : 0 < self.in_.Precision) (hrec : 0 ≤ self.arg.reconstruct)
    (hb : self.bytes_coefficients_in_range) : 0 ≤ self.site_bytes := by
  have h1 := self.spinor_bytes_nonneg hNc hNs hP hb
  have h2 := self.proj_spinor_bytes_nonneg hNc hNs hP hb
  have h3 := self.gauge_bytes_nonneg hP hrec hb
  rw [self.site_bytes_eq hb]
  linarith

theorem Dslash.exterior_cost_nonneg_monotone (self : Dslash) (d : Fin 4)
    (hNc : 1 ≤ self.in_.Ncolor)
    (hNs : self.in_.Nspin = 1 ∨ self.in_.Nspin = 2 ∨ self.in_.Nspin = 4)
    (hP : 0 < self.in_.Precision) (hrec : 0 ≤ self.arg.reconstruct)
    (hf : self.flops_coefficients_in_range) (hb : self.bytes_coefficients_in_range)
    (hG : ∀ d, 0 ≤ self.in_.GhostFace d)
    (V' : Int) (G' : Nat → Int) (hG' : ∀ d, self.in_.GhostFace d ≤ G' d)
    (hx : inInt32 ((self.ghost_flops + self.exterior_accum_flops) * 2 * G' d.val)
      ∧ inInt32 (self.ghost_bytes * 2 * G' d.val)) :
    0 ≤ (self.setKernelType (KernelType.exterior d)).flops
      ∧ 0 ≤ (self.setKernelType (KernelType.exterior d)).bytes
      ∧ (self.setKernelType (KernelType.exterior d)).flops
          ≤ ((self.setShape V' G').setKernelType (KernelType.exterior d)).flops
      ∧ (self.setKernelType (KernelType.exterior d)).bytes
          ≤ ((self.setShape V' G').setKernelType (KernelType.exterior d)).bytes := by
  have c₁ : 0 ≤ (self.ghost_flops + self.exterior_accum_flops) * 2 :=
    mul_nonneg (add_nonneg (self.ghost_flops_nonneg hNc hNs hf)
      (self.exterior_accum_flops_nonneg hNc hNs hf)) (by decide)
  have c₂ : 0 ≤ self.ghost_bytes * 2 :=
    mul_nonneg (self.ghost_bytes_nonneg hNc hNs hP hrec hb) (by decide)
  have p₁ := mul_nonneg c₁ (hG d.val)
  have p₂ := mul_nonneg c₂ (hG d.val)
  have q₁ := mul_le_mul_of_nonneg_left (hG' d.val) c₁
  have q₂ := mul_le_mul_of_nonneg_left (hG' d.val) c₂
  have e₁ : ((self.setShape V' G').setKernelType (KernelType.exterior d)).flops
      = (self.ghost_flops + self.exterior_accum_flops) * 2 * G' d.val :=
    (Dslash.flops_exterior (self.setShape V' G') d).trans (wrap32_of_inInt32 _ hx.1)
  have e₂ : ((self.setShape V' G').setKernelType (KernelType.exterior d)).bytes
      = self.ghost_bytes * 2 * G' d.val :=
    (Dslash.bytes_exterior (self.setShape V' G') d).trans (wrap32_of_inInt32 _ hx.2)
  rw [e₁, e₂, Dslash.flops_exterior, Dslash.bytes_exterior,
    wrap32_of_inInt32 _ (inInt32_of_nonneg_of_le _ _ p₁ q₁ hx.1),
    wrap32_of_inInt32 _ (inInt32_of_nonneg_of_le _ _ p₂ q₂ hx.2)]
  exact ⟨p₁, p₂, q₁, q₂⟩

theorem Dslash.exterior_all_cost_nonneg_monotone (self : Dslash)
    (hNc : 1 ≤ self.in_.Ncolor)
    (hNs : self.in_.Nspin = 1 ∨ self.in_.Nspin = 2 ∨ self.in_.Nspin = 4)
    (hP : 0 < self.in_.Precision) (hrec : 0 ≤ self.arg.reconstruct)
    (hf : self.flops_coefficients_in_range) (hb : self.bytes_coefficients_in_range)
    (hG : ∀ d, 0 ≤ self.in_.GhostFace d)
    (V' : Int) (G' : Nat → Int) (hG' : ∀ d, self.in_.GhostFace d ≤ G' d)
    (hx : inInt32 (2 * (G' 0 + G' 1 + G' 2 + G' 3))) :
    0 ≤ (self.setKernelType EXTERIOR_KERNEL_ALL).flops
      ∧ 0 ≤ (self.setKernelType EXTERIOR_KERNEL_ALL).bytes
      ∧ (self.setKernelType EXTERIOR_KERNEL_ALL).flops
          ≤ ((self.setShape V' G').setKernelType EXTERIOR_KERNEL_ALL).flops
      ∧ (self.setKernelType EXTERIOR_KERNEL_ALL).bytes
          ≤ ((self.setShape V' G').setKernelType EXTERIOR_KERNEL_ALL).bytes := by
  have c₁ : 0 ≤ self.ghost_flops + self.exterior_accum_flops :=
    add_nonneg (self.ghost_flops_nonneg hNc hNs hf) (self.exterior_accum_flops_nonneg hNc hNs hf)
  have c₂ : 0 ≤ self.ghost_bytes := self.ghost_bytes_nonneg hNc hNs hP hrec hb
  have s₀ : 0 ≤ 2 * (self.in_.GhostFace 0 + self.in_.GhostFace 1 + self.in_.GhostFace 2
      + self.in_.GhostFace 3) := by
    have := hG 0; have := hG 1; have := hG 2; have := hG 3; linarith
  have s₁ : 2 * (self.in_.GhostFace 0 + self.in_.GhostFace 1 + self.in_.GhostFace 2
      + self.in_.GhostFace 3) ≤ 2 * (G' 0 + G' 1 + G' 2 + G' 3) := by
    have := hG' 0; have := hG' 1; have := hG' 2; have := hG' 3; linarith
  have w : wrap32 (self.ghost_flops + self.exterior_accum_flops)
      = self.ghost_flops + self.exterior_accum_flops := wrap32_of_inInt32 _ hf.2.2.2.2
  have e₁ : ((self.setShape V' G').setKernelType EXTERIOR_KERNEL_ALL).flops
      = (self.ghost_flops + self.exterior_accum_flops) * (2 * (G' 0 + G' 1 + G' 2 + G' 3)) := by
    have := Dslash.flops_exterior_all (self.setShape V' G')
    rw [this]
    show wrap32 (self.ghost_flops + self.exterior_accum_flops)
      * wrap32 (2 * (G' 0 + G' 1 + G' 2 + G' 3)) = _
    rw [w, wrap32_of_inInt32 _ hx]
  have e₂ : ((self.setShape V' G').setKernelType EXTERIOR_KERNEL_ALL).bytes
      = self.ghost_bytes * (2 * (G' 0 + G' 1 + G' 2 + G' 3)) := by
    have := Dslash.bytes_exterior_all (self.setShape V' G')
    rw [this]
    show self.ghost_bytes * wrap32 (2 * (G' 0 + G' 1 + G' 2 + G' 3)) = _
    rw [wrap32_of_inInt32 _ hx]
  rw [e₁, e₂, Dslash.flops_exterior_all, Dslash.bytes_exterior_all, w,
    wrap32_of_inInt32 _ (inInt32_of_nonneg_of_le _ _ s₀ s₁ hx)]
  exact ⟨mul_nonneg c₁ s₀, mul_nonneg c₂ s₀, mul_le_mul_of_nonneg_left s₁ c₁,
    mul_le_mul_of_nonneg_left s₁ c₂⟩

theorem Dslash.policy_cost_nonneg_monotone (self : Dslash)
    (hNc : 1 ≤ self.in_.Ncolor)
    (hNs : self.in_.Nspin = 1 ∨ self.in_.Nspin = 2 ∨ self.in_.Nspin = 4)
    (hP : 0 < self.in_.Precision) (hrec : 0 ≤ self.arg.reconstruct)
    (hf : self.flops_coefficients_in_range) (hb : self.bytes_coefficients_in_range)
    (hV : 0 ≤ self.in_.Volume)
    (V' : Int) (G' : Nat → Int) (hV' : self.in_.Volume ≤ V') :
    0 ≤ (self.setKernelType KERNEL_POLICY).flops
      ∧ 0 ≤ (self.setKernelType KERNEL_POLICY).bytes
      ∧ (self.setKernelType KERNEL_POLICY).flops
          ≤ ((self.setShape V' G').setKernelType KERNEL_POLICY).flops
      ∧ (self.setKernelType KERNEL_POLICY).bytes
          ≤ ((self.setShape V' G').setKernelType KERNEL_POLICY).bytes := by
  have e₁ : ((self.setShape V' G').setKernelType KERNEL_POLICY).flops
      = self.site_flops * V' + (if self.arg.xpay then self.xpay_flops * V' else 0) :=
    Dslash.flops_policy (self.setShape V' G')
  have e₂ : ((self.setShape V' G').setKernelType KERNEL_POLICY).bytes
      = self.site_bytes * V' + (if self.arg.xpay then self.spinor_bytes else 0) :=
    Dslash.bytes_policy (self.setShape V' G')
  rw [e₁, e₂, Dslash.flops_policy, Dslash.bytes_policy]
  have c₁ := self.site_flops_nonneg hNc hNs hf
  have c₂ := self.xpay_flops_nonneg hNc hNs hf
  have c₃ := self.site_bytes_nonneg hNc hNs hP hrec hb
  have c₄ := self.spinor_bytes_nonneg hNc hNs hP hb
  have m₁ := mul_nonneg c₁ hV
  have m₂ := mul_nonneg c₂ hV
  have m₃ := mul_nonneg c₃ hV
  have n₁ := mul_le_mul_of_nonneg_left hV' c₁
  have n₂ := mul_le_mul_of_nonneg_left hV' c₂
  have n₃ := mul_le_mul_of_nonneg_left hV' c₃
  split_ifs <;> refine ⟨?_, ?_, ?_, ?_⟩ <;> linarith

theorem Dslash.interior_cost_monotone_volume (self : Dslash)
    (hNc : 1 ≤ self.in_.Ncolor)
    (hNs : self.in_.Nspin = 1 ∨ self.in_.Nspin = 2 ∨ self.in_.Nspin = 4)
    (hP : 0 < self.in_.Precision) (hrec : 0 ≤ self.arg.reconstruct)
    (hf : self.flops_coefficients_in_range) (hb : self.bytes_coefficients_in_range)
    (V' : Int) (hV' : self.in_.Volume ≤ V') :
    (self.setKernelType INTERIOR_KERNEL).flops
        ≤ ((self.setShape V' self.in_.GhostFace).setKernelType INTERIOR_KERNEL).flops
      ∧ (self.setKernelType INTERIOR_KERNEL).bytes
        ≤ ((self.setShape V' self.in_.GhostFace).setKernelType INTERIOR_KERNEL).bytes := by
  have e₁ : ((self.setShape V' self.in_.GhostFace).setKernelType INTERIOR_KERNEL).flops
      = self.fused_pack_flops + self.site_flops * V'
        + (if self.arg.xpay then self.xpay_flops * V' else 0)
        - self.ghost_flops * self.commGhostSites :=
    Dslash.flops_interior (self.setShape V' self.in_.GhostFace)
  have e₂ : ((self.setShape V' self.in_.GhostFace).setKernelType INTERIOR_KERNEL).bytes
      = self.fused_pack_bytes + self.site_bytes * V'
        + (if self.arg.xpay then self.spinor_bytes else 0)
        - self.ghost_bytes * self.commGhostSites :=
    Dslash.bytes_interior (self.setShape V' self.in_.GhostFace)
  rw [e₁, e₂, Dslash.flops_interior, Dslash.bytes_interior]
  have n₁ := mul_le_mul_of_nonneg_left hV' (self.site_flops_nonneg hNc hNs hf)
  have n₂ := mul_le_mul_of_nonneg_left hV' (self.xpay_flops_nonneg hNc hNs hf)
  have n₃ := mul_le_mul_of_nonneg_left hV' (self.site_bytes_nonneg hNc hNs hP hrec hb)
  split_ifs <;> refine ⟨?_, ?_⟩ <;> linarith

/-- C8 (as stated, refuted): on a staggered field with 16 sites and three-hop boundary slabs of 24
sites, communicating in all four dimensions, `flops()` and `bytes()` of the interior region are
negative, and both decrease when the boundary slabs grow to 25 sites. -/
theorem interior_cost_negative_and_decreasing :
    (staggeredDslash.setKernelType INTERIOR_KERNEL).flops = -4704
      ∧ (staggeredDslash.setKernelType INTERIOR_KERNEL).bytes = -14976
      ∧ ((staggeredDslash.setShape 16 (fun _ => 25)).setKernelType INTERIOR_KERNEL).flops
          = -5280
      ∧ ((staggeredDslash.setShape 16 (fun _ => 25)).setKernelType INTERIOR_KERNEL).bytes
          = -16128 := by
  decide

/-- C8 (amended): for every configuration with `Ncolor >= 1`, `Nspin` in `{1, 2, 4}`, positive
`Precision`, non-negative `reconstruct`, `Volume` and `GhostFace[0..3]`, in which no `int`
computation of a per-site coefficient overflows: for every region other than `INTERIOR_KERNEL`,
`flops()` and `bytes()` are non-negative and neither decreases when `Volume` and the
`GhostFace[d]` are increased, as long as the `int` products of that region do not overflow for the
increased boundary-slab sizes; for `INTERIOR_KERNEL`, neither `flops()` nor `bytes()` decreases
when `Volume` is increased with the boundary-slab sizes fixed. -/
theorem cost_nonneg_monotone (self : Dslash) (k : KernelType)
    (hNc : 1 ≤ self.in_.Ncolor)
    (hNs : self.in_.Nspin = 1 ∨ self.in_.Nspin = 2 ∨ self.in_.Nspin = 4)
    (hP : 0 < self.in_.Precision) (hrec : 0 ≤ self.arg.reconstruct)
    (hV : 0 ≤ self.in_.Volume) (hG : ∀ d, 0 ≤ self.in_.GhostFace d)
    (hf : self.flops_coefficients_in_range) (hb : self.bytes_coefficients_in_range)
    (V' : Int) (G' : Nat → Int) (hV' : self.in_.Volume ≤ V')
    (hG' : ∀ d, self.in_.GhostFace d ≤ G' d)
    (hx : (self.setShape V' G').exterior_products_in_range k) :
    (k ≠ INTERIOR_KERNEL →
        0 ≤ (self.setKernelType k).flops ∧ 0 ≤ (self.setKernelType k).bytes
          ∧ (self.setKernelType k).flops ≤ ((self.setShape V' G').setKernelType k).flops
          ∧ (self.setKernelType k).bytes ≤ ((self.setShape V' G').setKernelType k).bytes)
      ∧ (self.setKernelType INTERIOR_KERNEL).flops
          ≤ ((self.setShape V' self.in_.GhostFace).setKernelType INTERIOR_KERNEL).flops
      ∧ (self.setKernelType INTERIOR_KERNEL).bytes
          ≤ ((self.setShape V' self.in_.GhostFace).setKernelType INTERIOR_KERNEL).bytes := by
  refine ⟨?_, self.interior_cost_monotone_volume hNc hNs hP hrec hf hb V' hV'⟩
  intro hk
  cases k
  · exact self.exterior_cost_nonneg_monotone 0 hNc hNs hP hrec hf hb hG V' G' hG' hx
  · exact self.exterior_cost_nonneg_monotone 1 hNc hNs hP hrec hf hb hG V' G' hG' hx
  · exact self.exterior_cost_nonneg_monotone 2 hNc hNs hP hrec hf hb hG V' G' hG' hx
  · exact self.exterior_cost_nonneg_monotone 3 hNc hNs hP hrec hf hb hG V' G' hG' hx
  · exact absurd rfl hk
  · exact self.exterior_all_cost_nonneg_monotone hNc hNs hP hrec hf hb hG V' G' hG' hx
  · exact self.policy_cost_nonneg_monotone hNc hNs hP hrec hf hb hV V' G' hV'

/-- A concrete instance of `cost_nonneg_monotone`: the Wilson configuration `commXDslash`, grown
from 16 to 32 sites and from slabs of 8 to slabs of 16 sites, in the exterior region of the first
dimension. -/
theorem cost_nonneg_monotone_witness :
    (EXTERIOR_KERNEL_X ≠ INTERIOR_KERNEL →
        0 ≤ (commXDslash.setKernelType EXTERIOR_KERNEL_X).flops
          ∧ 0 ≤ (commXDslash.setKernelType EXTERIOR_KERNEL_X).bytes
          ∧ (commXDslash.setKernelType EXTERIOR_KERNEL_X).flops
              ≤ ((commXDslash.setShape 32 (fun _ => 16)).setKernelType EXTERIOR_KERNEL_X).flops
          ∧ (commXDslash.setKernelType EXTERIOR_KERNEL_X).bytes
              ≤ ((commXDslash.setShape 32 (fun _ => 16)).setKernelType EXTERIOR_KERNEL_X).bytes)
      ∧ (commXDslash.setKernelType INTERIOR_KERNEL).flops
          ≤ ((commXDslash.setShape 32 commXDslash.in_.GhostFace).setKernelType
              INTERIOR_KERNEL).flops
      ∧ (commXDslash.setKernelType INTERIOR_KERNEL).bytes
          ≤ ((commXDslash.setShape 32 commXDslash.in_.GhostFace).setKernelType
              INTERIOR_KERNEL).bytes :=
  cost_nonneg_monotone commXDslash EXTERIOR_KERNEL_X (by decide) (by decide) (by decide)
    (by decide) (by decide) (fun _ => (by decide : (0 : Int) ≤ 8)) (by decide) (by decide)
    32 (fun _ => 16) (by decide) (fun _ => (by decide : (8 : Int) ≤ 16)) (by decide)

/-! ## Variant instantiation cascade -/

theorem Dslash.instantiate_kernel_type_multi (self : Dslash) (nDim nColor nParity : Int)
    (dagger xpay : Bool) (arg : DslashArg) (k : KernelType)
    (hloc : self.in_.Location ≠ QUDA_CPU_FIELD_LOCATION)
    (hk : KernelType.ofInt? arg.kernel_type = some k) (hp : k ≠ KERNEL_POLICY) :
    self.instantiate_kernel_type true nDim nColor nParity dagger xpay arg
      = { launched := [⟨nDim, nColor, nParity, dagger, xpay, k⟩], fatal := none } := by
  unfold Dslash.instantiate_kernel_type
  rw [if_neg hloc, hk]
  cases k <;> first | rfl | exact absurd rfl hp

theorem Dslash.instantiate_of_parity (MULTI_GPU : Bool) (self : Dslash) (nDim nColor : Int)
    (arg : DslashArg) (hpar : arg.nParity = 1 ∨ arg.nParity = 2) :
    self.instantiate MULTI_GPU nDim nColor arg
      = self.instantiate_kernel_type MULTI_GPU nDim nColor arg.nParity arg.dagger arg.xpay arg := by
  unfold Dslash.instantiate Dslash.instantiate_nParity Dslash.instantiate_dagger
  rcases hpar with h | h <;> rw [h] <;> cases arg.xpay <;> cases arg.dagger <;> simp

theorem Dslash.instantiate_bad_parity (MULTI_GPU : Bool) (self : Dslash) (nDim nColor : Int)
    (arg : DslashArg) (h1 : arg.nParity ≠ 1) (h2 : arg.nParity ≠ 2) :
    self.instantiate MULTI_GPU nDim nColor arg
      = { launched := [], fatal := some (.nParityUndefined arg.nParity) } := by
  unfold Dslash.instantiate Dslash.instantiate_nParity
  cases arg.xpay <;> simp [h1, h2]

/-- C9: in the static multi-GPU build, for every context with `nParity` in `{1, 2}`, an input field
that is not CPU-located and a region among `INTERIOR_KERNEL`, `EXTERIOR_KERNEL_X/Y/Z/T` and
`EXTERIOR_KERNEL_ALL`, the cascade invokes exactly one `launch`, without a fatal error, and its
template arguments are `(nDim, nColor, arg.nParity, arg.dagger, arg.xpay, arg.kernel_type)`. -/
theorem instantiate_launches_one (self : Dslash) (nDim nColor : Int) (arg : DslashArg)
    (k : KernelType) (hpar : arg.nParity = 1 ∨ arg.nParity = 2)
    (hloc : self.in_.Location ≠ QUDA_CPU_FIELD_LOCATION)
    (hk : arg.kernel_type = k.toInt) (hp : k ≠ KERNEL_POLICY) :
    self.instantiate true nDim nColor arg
      = { launched := [⟨nDim, nColor, arg.nParity, arg.dagger, arg.xpay, k⟩], fatal := none } := by
  have hk' : KernelType.ofInt? arg.kernel_type = some k := by
    rw [hk, KernelType.ofInt?_toInt]
  rw [Dslash.instantiate_of_parity true self nDim nColor arg hpar,
    self.instantiate_kernel_type_multi nDim nColor arg.nParity arg.dagger arg.xpay arg k hloc hk'
      hp]

/-- A concrete instance of `instantiate_launches_one`: the context `xpayArg true` in the exterior
region of the third dimension with two parities. -/
theorem instantiate_launches_one_witness :
    commXDslash.instantiate true 4 3
        { xpayArg true with kernel_type := EXTERIOR_KERNEL_Z.toInt, nParity := 2 }
      = { launched := [⟨4, 3, 2, true, true, EXTERIOR_KERNEL_Z⟩], fatal := none } :=
  instantiate_launches_one commXDslash 4 3
    { xpayArg true with kernel_type := EXTERIOR_KERNEL_Z.toInt, nParity := 2 }
    EXTERIOR_KERNEL_Z (by decide) (by decide) rfl (by decide)

theorem KernelType.ofInt?_eq_some (v : Int) (k : KernelType)
    (h : KernelType.ofInt? v = some k) : v = k.toInt := by
  unfold KernelType.ofInt? at h
  split_ifs at h with h0 h1 h2 h3 h5 h6 h7 <;> cases h
  exacts [h0, h1, h2, h3, h5, h6, h7]

theorem launchable_iff (MULTI_GPU : Bool) (v : Int) :
    launchable MULTI_GPU v ↔
      ∃ k : KernelType, KernelType.ofInt? v = some k
        ∧ (k = INTERIOR_KERNEL ∨ (MULTI_GPU = true ∧ k ≠ KERNEL_POLICY)) := by
  constructor
  · intro h
    cases MULTI_GPU
    · have h : v = INTERIOR_KERNEL.toInt := h
      exact ⟨INTERIOR_KERNEL, by rw [h]; rfl, Or.inl rfl⟩
    · have h : v = INTERIOR_KERNEL.toInt ∨ v = EXTERIOR_KERNEL_X.toInt
          ∨ v = EXTERIOR_KERNEL_Y.toInt ∨ v = EXTERIOR_KERNEL_Z.toInt
          ∨ v = EXTERIOR_KERNEL_T.toInt ∨ v = EXTERIOR_KERNEL_ALL.toInt := h
      rcases h with h | h | h | h | h | h <;> rw [h] <;>
        exact ⟨_, KernelType.ofInt?_toInt _, Or.inr ⟨rfl, by decide⟩⟩
  · rintro ⟨k, hk, hc⟩
    have hv : v = k.toInt := KernelType.ofInt?_eq_some v k hk
    subst hv
    rcases hc with rfl | ⟨rfl, hp⟩
    · cases MULTI_GPU
      · exact (rfl : INTERIOR_KERNEL.toInt = INTERIOR_KERNEL.toInt)
      · exact Or.inl rfl
    · cases k <;> first | exact absurd rfl hp | (unfold launchable; simp)

theorem Dslash.instantiate_kernel_type_fatal (MULTI_GPU : Bool) (self : Dslash)
    (nDim nColor nParity : Int) (dagger xpay : Bool) (arg : DslashArg) :
    ((self.instantiate_kernel_type MULTI_GPU nDim nColor nParity dagger xpay arg).fatal.isSome
        = true
      ∧ (self.instantiate_kernel_type MULTI_GPU nDim nColor nParity dagger xpay arg).launched = [])
      ↔ (self.in_.Location = QUDA_CPU_FIELD_LOCATION ∨ ¬ launchable MULTI_GPU arg.kernel_type) := by
  rw [launchable_iff]
  unfold Dslash.instantiate_kernel_type
  by_cases hloc : self.in_.Location = QUDA_CPU_FIELD_LOCATION
  · simp [hloc]
  · rw [if_neg hloc]
    rcases hk : KernelType.ofInt? arg.kernel_type with _ | k
    · cases MULTI_GPU <;> simp [hloc]
    · cases MULTI_GPU <;> cases k <;> simp [hloc]

/-- C10: in the static build the cascade ends in a fatal error, having launched no kernel, if and
only if `arg.nParity` is outside `{1, 2}`, or the input field is CPU-located, or `arg.kernel_type`
is not a launchable region: `KERNEL_POLICY` or a value that is no enumerator, or, in a single-GPU
build, any region other than `INTERIOR_KERNEL`. -/
theorem instantiate_fatal_iff (MULTI_GPU : Bool) (self : Dslash) (nDim nColor : Int)
    (arg : DslashArg) :
    ((self.instantiate MULTI_GPU nDim nColor arg).fatal.isSome = true
        ∧ (self.instantiate MULTI_GPU nDim nColor arg).launched = [])
      ↔ ((arg.nParity ≠ 1 ∧ arg.nParity ≠ 2) ∨ self.in_.Location = QUDA_CPU_FIELD_LOCATION
          ∨ ¬ launchable MULTI_GPU arg.kernel_type) := by
  by_cases hpar : arg.nParity = 1 ∨ arg.nParity = 2
  · rw [Dslash.instantiate_of_parity MULTI_GPU self nDim nColor arg hpar,
      self.instantiate_kernel_type_fatal MULTI_GPU nDim nColor arg.nParity arg.dagger arg.xpay arg]
    constructor
    · exact Or.inr
    · rintro (⟨h1, h2⟩ | h)
      · rcases hpar with h | h
        · exact absurd h h1
        · exact absurd h h2
      · exact h
  · have h1 : arg.nParity ≠ 1 := fun h => hpar (Or.inl h)
    have h2 : arg.nParity ≠ 2 := fun h => hpar (Or.inr h)
    rw [Dslash.instantiate_bad_parity MULTI_GPU self nDim nColor arg h1 h2]
    exact ⟨fun _ => Or.inl ⟨h1, h2⟩, fun _ => ⟨rfl, rfl⟩⟩

/-! ## Traffic model: interior plus exterior against the policy aggregate -/

theorem Dslash.exteriorBytes_term (self : Dslash) (h : self.comm_bytes_products_in_range)
    (d : Fin 4) :
    (if self.arg.commDim d then (self.setKernelType (KernelType.exterior d)).bytes else 0)
      = self.ghost_bytes
        * (if self.arg.commDim d then wrap32 (2 * self.in_.GhostFace d.val) else 0) := by
  by_cases hd : self.arg.commDim d = true
  · rw [if_pos hd, if_pos hd, Dslash.bytes_exterior, wrap32_of_inInt32 _ (h d hd).2,
      wrap32_of_inInt32 _ (h d hd).1]
    ring
  · rw [if_neg hd, if_neg hd, mul_zero]

theorem Dslash.exteriorBytes_eq (self : Dslash) (h : self.comm_bytes_products_in_range) :
    self.exteriorBytes = self.ghost_bytes * self.commGhostSites := by
  rw [Dslash.commGhostSites_eq]
  simp only [Dslash.exteriorBytes, List.map, List.sum_cons, List.sum_nil]
  rw [self.exteriorBytes_term h 0, self.exteriorBytes_term h 1, self.exteriorBytes_term h 2,
    self.exteriorBytes_term h 3]
  simp only [Fin.val_zero, Fin.val_one, fin4_val_two, fin4_val_three]
  ring

theorem Dslash.fused_pack_bytes_eq (self : Dslash)
    (hp : inInt32 (self.pack_bytes * self.arg.nParity * self.in_.Ls * self.arg.pack_threads)) :
    self.fused_pack_bytes
      = self.pack_bytes * self.arg.nParity * self.in_.Ls * self.arg.pack_threads := by
  unfold Dslash.fused_pack_bytes
  by_cases h0 : self.arg.pack_threads = 0
  · simp [h0]
  · rw [if_pos h0, wrap32_of_inInt32 _ hp]

/-- Where no `int` product of `bytes()` overflows, the interior and the enabled exterior byte
counts add up to the policy byte count plus the fused-packing term
`pack_bytes * nParity * Ls * pack_threads`. -/
theorem Dslash.bytes_interior_plus_exterior_in_range (self : Dslash)
    (h : self.comm_bytes_products_in_range)
    (hp : inInt32 (self.pack_bytes * self.arg.nParity * self.in_.Ls * self.arg.pack_threads)) :
    (self.setKernelType INTERIOR_KERNEL).bytes + self.exteriorBytes
      = (self.setKernelType KERNEL_POLICY).bytes
        + self.pack_bytes * self.arg.nParity * self.in_.Ls * self.arg.pack_threads := by
  rw [Dslash.bytes_interior, Dslash.bytes_policy, Dslash.exteriorBytes_eq self h,
    Dslash.fused_pack_bytes_eq self hp]
  ring

/-- C16 (evaluated on the code): on a Wilson field in double precision with 32768000 sites and a
boundary slab of 2048000 sites in the one enabled dimension, without packing threads, `bytes()` of
the exterior region is the `int` product `624 * 2 * 2048000`, which overflows to `-1739063296`;
`bytes()` of the interior region plus that of the exterior region is 83785416704, which is `2^32`
short of `bytes()` of the policy aggregate, 88080384000, although the fused-packing term is 0. -/
theorem bytes_interior_plus_exterior_overflow :
    largeDslash.ghost_bytes = 624
      ∧ (largeDslash.setKernelType EXTERIOR_KERNEL_T).bytes = -1739063296
      ∧ (largeDslash.setKernelType INTERIOR_KERNEL).bytes + largeDslash.exteriorBytes
          = 83785416704
      ∧ (largeDslash.setKernelType KERNEL_POLICY).bytes = 88080384000
      ∧ largeDslash.pack_bytes * largeDslash.arg.nParity * largeDslash.in_.Ls
          * largeDslash.arg.pack_threads = 0 := by
  decide

/-! ## Cost model: the Wilson count and the cost of xpay -/

/-- C14 (as stated, refuted): for a Wilson field with three colours and four spin components and
16 lattice sites, `flops()` of the policy aggregate without xpay is `1320 * 16`, not
`1344 * 16`. -/
theorem wilson_policy_flops_not_1344 :
    ((commXDslash.setXpay false).setKernelType KERNEL_POLICY).flops = 1320 * 16
      ∧ ((commXDslash.setXpay false).setKernelType KERNEL_POLICY).flops ≠ 1344 * 16 := by
  decide

/-- C14 (amended): for a field with `Ncolor = 3` and `Nspin = 4`, `flops()` of the policy aggregate
is `1320 * Volume` without xpay and `1368 * Volume` with xpay, for every `Volume`. -/
theorem wilson_policy_flops (self : Dslash) (hNc : self.in_.Ncolor = 3)
    (hNs : self.in_.Nspin = 4) :
    ((self.setXpay false).setKernelType KERNEL_POLICY).flops = 1320 * self.in_.Volume
      ∧ ((self.setXpay true).setKernelType KERNEL_POLICY).flops = 1368 * self.in_.Volume := by
  have t : Int.tdiv 4 4 = 1 := by decide
  have e₁ : (self.setXpay false).site_flops = 1320 := by
    show wrap32 (2 * 4 * (self.in_.Nspin.tdiv 4) * self.in_.Ncolor * self.in_.Nspin
      + 2 * 4 * (if self.in_.Nspin = 4 then 2 else 1)
        * wrap32 ((8 * self.in_.Ncolor - 2) * self.in_.Ncolor)
      + (2 * 4 - 1) * 2 * self.in_.Ncolor * self.in_.Nspin) = 1320
    rw [hNc, hNs, t]
    decide
  have e₂ : (self.setXpay true).site_flops = 1320 := e₁
  have e₃ : (self.setXpay true).xpay_flops = 48 := by
    show wrap32 (2 * 2 * self.in_.Ncolor * self.in_.Nspin) = 48
    rw [hNc, hNs]
    decide
  constructor
  · rw [Dslash.flops_policy, e₁]
    show 1320 * self.in_.Volume + 0 = _
    ring
  · rw [Dslash.flops_policy, e₂]
    show 1320 * self.in_.Volume + (self.setXpay true).xpay_flops * self.in_.Volume = _
    rw [e₃]
    ring

/-- A concrete instance of `wilson_policy_flops`: the Wilson field of 16 sites. -/
theorem wilson_policy_flops_witness :
    ((commXDslash.setXpay false).setKernelType KERNEL_POLICY).flops = 1320 * 16
      ∧ ((commXDslash.setXpay true).setKernelType KERNEL_POLICY).flops = 1368 * 16 :=
  wilson_policy_flops commXDslash rfl rfl

theorem Dslash.xpay_cost_increment (self : Dslash) :
    ((self.setXpay true).setKernelType KERNEL_POLICY).bytes
        = ((self.setXpay false).setKernelType KERNEL_POLICY).bytes + self.spinor_bytes
      ∧ ((self.setXpay true).setKernelType INTERIOR_KERNEL).bytes
        = ((self.setXpay false).setKernelType INTERIOR_KERNEL).bytes + self.spinor_bytes
      ∧ ((self.setXpay true).setKernelType KERNEL_POLICY).flops
        = ((self.setXpay false).setKernelType KERNEL_POLICY).flops
          + self.xpay_flops * self.in_.Volume
      ∧ ((self.setXpay true).setKernelType INTERIOR_KERNEL).flops
        = ((self.setXpay false).setKernelType INTERIOR_KERNEL).flops
          + self.xpay_flops * self.in_.Volume := by
  have b₁ : ((self.setXpay true).setKernelType KERNEL_POLICY).bytes
      = self.site_bytes * self.in_.Volume + self.spinor_bytes :=
    Dslash.bytes_policy (self.setXpay true)
  have b₀ : ((self.setXpay false).setKernelType KERNEL_POLICY).bytes
      = self.site_bytes * self.in_.Volume + 0 :=
    Dslash.bytes_policy (self.setXpay false)
  have i₁ : ((self.setXpay true).setKernelType INTERIOR_KERNEL).bytes
      = self.fused_pack_bytes + self.site_bytes * self.in_.Volume + self.spinor_bytes
        - self.ghost_bytes * self.commGhostSites :=
    Dslash.bytes_interior (self.setXpay true)
  have i₀ : ((self.setXpay false).setKernelType INTERIOR_KERNEL).bytes
      = self.fused_pack_bytes + self.site_bytes * self.in_.Volume + 0
        - self.ghost_bytes * self.commGhostSites :=
    Dslash.bytes_interior (self.setXpay false)
  have f₁ : ((self.setXpay true).setKernelType KERNEL_POLICY).flops
      = self.site_flops * self.in_.Volume + self.xpay_flops * self.in_.Volume :=
    Dslash.flops_policy (self.setXpay true)
  have f₀ : ((self.setXpay false).setKernelType KERNEL_POLICY).flops
      = self.site_flops * self.in_.Volume + 0 :=
    Dslash.flops_policy (self.setXpay false)
  have g₁ : ((self.setXpay true).setKernelType INTERIOR_KERNEL).flops
      = self.fused_pack_flops + self.site_flops * self.in_.Volume
        + self.xpay_flops * self.in_.Volume - self.ghost_flops * self.commGhostSites :=
    Dslash.flops_interior (self.setXpay true)
  have g₀ : ((self.setXpay false).setKernelType INTERIOR_KERNEL).flops
      = self.fused_pack_flops + self.site_flops * self.in_.Volume + 0
        - self.ghost_flops * self.commGhostSites :=
    Dslash.flops_interior (self.setXpay false)
  rw [b₁, b₀, i₁, i₀, f₁, f₀, g₁, g₀]
  refine ⟨?_, ?_, ?_, ?_⟩ <;> ring

/-- C17 (evaluated on the code): on the Wilson field of 16 sites in single precision, where
`spinor_bytes` is 96, turning xpay on raises `bytes()` of the policy aggregate and of the interior
region by 96, one site's worth, not by `96 * 16`, while it raises `flops()` by `48 * 16`. -/
theorem xpay_bytes_increment_one_site :
    commXDslash.spinor_bytes = 96
      ∧ commXDslash.in_.Volume = 16
      ∧ ((commXDslash.setXpay false).setKernelType KERNEL_POLICY).bytes = 21504
      ∧ ((commXDslash.setXpay true).setKernelType KERNEL_POLICY).bytes = 21504 + 96
      ∧ ((commXDslash.setXpay false).setKernelType INTERIOR_KERNEL).bytes = 16512
      ∧ ((commXDslash.setXpay true).setKernelType INTERIOR_KERNEL).bytes = 16512 + 96
      ∧ ((commXDslash.setXpay false).setKernelType KERNEL_POLICY).flops = 21120
      ∧ ((commXDslash.setXpay true).setKernelType KERNEL_POLICY).flops = 21120 + 48 * 16 := by
  decide

/-! ## The auxiliary knob of the fused packing kernel -/

/-- C12: when `arg.pack_threads` is non-zero and the region is `INTERIOR_KERNEL`, `initTuneParam`
and `defaultTuneParam` set `param.aux.x` to 1; from `aux.x = 1` three successive `advanceAux` calls
return `true` with `aux.x = 2, 3, 4`, the fourth returns `false` and resets `aux.x` to 1; and a
knob within `[1, 4]` stays within `[1, 4]`, with nothing but `aux.x` changed.  Otherwise
`advanceAux` returns `false` and leaves the tuning parameter unchanged. -/
theorem advanceAux_sweep (self : Dslash) (base₁ base₂ : TuneParam → TuneParam)
    (param : TuneParam) :
    if self.arg.pack_threads ≠ 0 ∧ self.arg.kernel_type = INTERIOR_KERNEL.toInt then
      (self.initTuneParam base₁ param).aux.x = 1
        ∧ (self.defaultTuneParam base₂ param).aux.x = 1
        ∧ (self.advanceAux { param with aux := { param.aux with x := 1 } }
                = (true, { param with aux := { param.aux with x := 2 } })
            ∧ self.advanceAux { param with aux := { param.aux with x := 2 } }
                = (true, { param with aux := { param.aux with x := 3 } })
            ∧ self.advanceAux { param with aux := { param.aux with x := 3 } }
                = (true, { param with aux := { param.aux with x := 4 } })
            ∧ self.advanceAux { param with aux := { param.aux with x := 4 } }
                = (false, { param with aux := { param.aux with x := 1 } }))
        ∧ (1 ≤ param.aux.x ∧ param.aux.x ≤ 4 →
            1 ≤ (self.advanceAux param).2.aux.x ∧ (self.advanceAux param).2.aux.x ≤ 4
            ∧ ((self.advanceAux param).1 = true ↔ param.aux.x < 4))
    else
      self.advanceAux param = (false, param) := by
  by_cases hc : self.arg.pack_threads ≠ 0 ∧ self.arg.kernel_type = INTERIOR_KERNEL.toInt
  · rw [if_pos hc]
    refine ⟨?_, ?_, ?_, ?_⟩
    · unfold Dslash.initTuneParam
      rw [if_pos hc]
    · unfold Dslash.defaultTuneParam
      rw [if_pos hc]
    · unfold Dslash.advanceAux
      simp only [if_pos hc]
      refine ⟨?_, ?_, ?_, ?_⟩ <;> rfl
    · rintro ⟨h1, h4⟩
      unfold Dslash.advanceAux
      simp only [if_pos hc]
      by_cases h : param.aux.x + 1 ≤ 4
      · simp only [if_pos h]
        refine ⟨by omega, by omega, ?_⟩
        simp only [true_iff]
        omega
      · simp only [if_neg h]
        refine ⟨le_refl _, by decide, ?_⟩
        constructor
        · intro hf
          cases hf
        · intro hlt
          omega
  · rw [if_neg hc]
    unfold Dslash.advanceAux
    rw [if_neg hc]

/-! ## Ghost pointers across calls of `setParam` -/

theorem setEntry_ite_self {α : Type} (a : Nat → α) (i : Nat) (c : Prop) [Decidable c] (x : α) :
    (if c then setEntry a i x else a) = setEntry a i (if c then x else a i) := by
  split_ifs
  · rfl
  · funext j
    unfold setEntry
    split_ifs with h
    · rw [h]
    · rfl

theorem Dslash.setParam_ghost_entry (comm : Comm) (kernelPackT : Bool) (self : Dslash)
    (arg : DslashArg) (ghost : Nat → Int) (dim dir : Nat) (hdim : dim < 4) (hdir : dir < 2) :
    (self.setParam comm kernelPackT arg ghost).ghost (2 * dim + dir)
      = if ¬ comm.peer2peer_enabled dir dim = true ∨ arg.kernel_type = INTERIOR_KERNEL.toInt then
          self.in_.Ghost2 + self.in_.GhostOffset dim dir * self.in_.GhostPrecision
        else ghost (2 * dim + dir) := by
  simp only [Dslash.setParam, List.foldl, setEntry_ite_self]
  interval_cases dim <;> interval_cases dir <;> simp [setEntry]

/-- C13 (as stated, refuted): in the exterior region of the first dimension, with a peer link on
every channel, `setParam` hands on the ghost pointers the previous call left in the static array
(here 7777 in every entry) instead of `Ghost2() + GhostOffset(dim, dir) * GhostPrecision()` (here
32 for channel `(0, 1)`). -/
theorem setParam_exterior_peer_keeps_pointer :
    (commXDslash.setParam allPeerComm true
        { commXArg with kernel_type := EXTERIOR_KERNEL_X.toInt } (fun _ => 7777)).ghost (2 * 0 + 1)
        = 7777
      ∧ commXDslash.in_.Ghost2 + commXDslash.in_.GhostOffset 0 1 * commXDslash.in_.GhostPrecision
        = 32 := by
  decide

/-- C13 (amended): after every call of `setParam`, the ghost pointer of a channel `(dim, dir)`
equals `Ghost2() + GhostOffset(dim, dir) * GhostPrecision()` of the current input field if the
region is `INTERIOR_KERNEL` or the channel has no peer link; for any other region a channel with a
peer link keeps the pointer the previous call left in the static array. -/
theorem setParam_ghost (comm : Comm) (kernelPackT : Bool) (self : Dslash) (arg : DslashArg)
    (ghost : Nat → Int) (dim dir : Nat) (hdim : dim < 4) (hdir : dir < 2) :
    (self.setParam comm kernelPackT arg ghost).ghost (2 * dim + dir)
      = if arg.kernel_type = INTERIOR_KERNEL.toInt ∨ comm.peer2peer_enabled dir dim = false then
          self.in_.Ghost2 + self.in_.GhostOffset dim dir * self.in_.GhostPrecision
        else ghost (2 * dim + dir) := by
  rw [Dslash.setParam_ghost_entry comm kernelPackT self arg ghost dim dir hdim hdir]
  by_cases hk : arg.kernel_type = INTERIOR_KERNEL.toInt
  · rw [if_pos (Or.inr hk), if_pos (Or.inl hk)]
  · cases hp : comm.peer2peer_enabled dir dim
    · rw [if_pos (Or.inl (by simp)), if_pos (Or.inr rfl)]
    · rw [if_neg (by simp [hk]), if_neg (by simp [hk])]

/-- A concrete instance of `setParam_ghost`: in the interior region, channel `(1, 0)` of the Wilson
field gets the fresh pointer `0 + 16 * 4`, whatever the static array held. -/
theorem setParam_ghost_witness :
    (commXDslash.setParam allPeerComm true commXArg (fun _ => 7777)).ghost (2 * 1 + 0) = 64 :=
  (setParam_ghost allPeerComm true commXDslash commXArg (fun _ => 7777) 1 0 (by decide)
    (by decide)).trans (by decide)

/-! ## Static against deferred resolution -/

theorem Dslash.instantiate_kernel_type_launchable (MULTI_GPU : Bool) (self : Dslash)
    (nDim nColor nParity : Int) (dagger xpay : Bool) (arg : DslashArg)
    (hloc : self.in_.Location ≠ QUDA_CPU_FIELD_LOCATION)
    (hl : launchable MULTI_GPU arg.kernel_type) :
    ∃ k : KernelType, arg.kernel_type = k.toInt
      ∧ self.instantiate_kernel_type MULTI_GPU nDim nColor nParity dagger xpay arg
        = { launched := [⟨nDim, nColor, nParity, dagger, xpay, k⟩], fatal := none } := by
  obtain ⟨k, hk, hc⟩ := (launchable_iff MULTI_GPU arg.kernel_type).1 hl
  refine ⟨k, KernelType.ofInt?_eq_some _ _ hk, ?_⟩
  unfold Dslash.instantiate_kernel_type
  rw [if_neg hloc, hk]
  rcases hc with rfl | ⟨rfl, hp⟩
  · cases MULTI_GPU <;> rfl
  · cases k <;> first | rfl | exact absurd rfl hp

/-- C11 (as stated, refuted): for a CPU-located input field the static strategy ends in the fatal
error `Not implemented` without a launch, while the deferred strategy raises no fatal error and
asks jitify to build and launch the variant `(4, 3, 1, false, false, INTERIOR_KERNEL)`. -/
theorem instantiate_static_jit_differ :
    cpuDslash.instantiate true 4 3 commXArg = { launched := [], fatal := some .notImplemented }
      ∧ cpuDslash.instantiate_jit (fun _ => 0) 4 3 commXArg
        = { instantiated := [⟨4, 3, 1, false, false, 5⟩], jitify_error := 0, fatal := none } := by
  decide

/-- C11 (amended): the static strategy and the deferred strategy resolve the same kernel variant
`(nDim, nColor, nParity, dagger, xpay, kernel_type)`, neither ending in a fatal error, exactly in
the contexts with `nParity` in `{1, 2}`, an input field that is not CPU-located and a launchable
region; in every other context the static strategy ends in a fatal error while the deferred
strategy hands the run-time values to jitify without a check. -/
theorem instantiate_static_jit_agree_iff (MULTI_GPU : Bool) (jitify : Instantiation → Int)
    (self : Dslash) (nDim nColor : Int) (arg : DslashArg) :
    ((self.instantiate MULTI_GPU nDim nColor arg).launched.map Variant.toInstantiation
          = (self.instantiate_jit jitify nDim nColor arg).instantiated
        ∧ (self.instantiate MULTI_GPU nDim nColor arg).fatal
          = (self.instantiate_jit jitify nDim nColor arg).fatal)
      ↔ ((arg.nParity = 1 ∨ arg.nParity = 2) ∧ self.in_.Location ≠ QUDA_CPU_FIELD_LOCATION
          ∧ launchable MULTI_GPU arg.kernel_type) := by
  constructor
  · rintro ⟨-, hf⟩
    have hf : (self.instantiate MULTI_GPU nDim nColor arg).fatal = none := hf
    by_cases hpar : arg.nParity = 1 ∨ arg.nParity = 2
    · refine ⟨hpar, ?_⟩
      rw [Dslash.instantiate_of_parity MULTI_GPU self nDim nColor arg hpar] at hf
      have key := self.instantiate_kernel_type_fatal MULTI_GPU nDim nColor arg.nParity
        arg.dagger arg.xpay arg
      by_contra hcon
      have hbad : self.in_.Location = QUDA_CPU_FIELD_LOCATION
          ∨ ¬ launchable MULTI_GPU arg.kernel_type := by
        by_cases hloc : self.in_.Location = QUDA_CPU_FIELD_LOCATION
        · exact Or.inl hloc
        · exact Or.inr fun hl => hcon ⟨hloc, hl⟩
      have := (key.2 hbad).1
      rw [hf] at this
      cases this
    · have h1 : arg.nParity ≠ 1 := fun h => hpar (Or.inl h)
      have h2 : arg.nParity ≠ 2 := fun h => hpar (Or.inr h)
      rw [Dslash.instantiate_bad_parity MULTI_GPU self nDim nColor arg h1 h2] at hf
      cases hf
  · rintro ⟨hpar, hloc, hl⟩
    obtain ⟨k, hk, e⟩ := self.instantiate_kernel_type_launchable MULTI_GPU nDim nColor
      arg.nParity arg.dagger arg.xpay arg hloc hl
    rw [Dslash.instantiate_of_parity MULTI_GPU self nDim nColor arg hpar, e]
    simp [Dslash.instantiate_jit, Variant.toInstantiation, hk]

/-! ## The cache of trained parameters -/

end quda
